import Mathlib

/-!
Verification of the renewable-energy preprocessing pipeline and analytics
engine (backend/renewables).  The Python source is shallowly embedded:
DataFrames become lists of records, `pd.to_numeric(errors='coerce')` becomes
an `Option ℚ`-valued coercion, float arithmetic is modelled by exact
rational (and, for the one compound-growth formula, real) arithmetic, and
`pd.merge(..., how='left')` becomes an explicit flat-map over matching rows.
-/

set_option maxHeartbeats 1000000

/-- Characters treated as whitespace by Python's `str.strip()` (ASCII model). -/
def pyWhitespace (c : Char) : Bool :=
  c = ' ' || c = '\t' || c = '\n' || c = '\x0d' || c = '\x0b' || c = '\x0c'

/-- Model of Python `str.strip()`: drop leading and trailing whitespace. -/
def pyStrip (s : String) : String :=
  (((s.toList.dropWhile pyWhitespace).reverse.dropWhile pyWhitespace).reverse).asString

/-- Model of Python `str.lower()` (ASCII model). -/
def lowerStr (s : String) : String :=
  (s.toList.map Char.toLower).asString

/-- Boolean substring test: `subStr pat s` models Python `pat in s` /
`Series.str.contains(pat)` for a literal pattern. -/
def subStr (pat s : String) : Bool :=
  s.toList.tails.any (fun t => pat.toList.isPrefixOf t)

/-- Model of Python `str.isupper()` (ASCII model): at least one letter and
every letter is uppercase. -/
def pyIsUpper (s : String) : Bool :=
  s.toList.any (fun c => c.isAlpha) && s.toList.all (fun c => !c.isAlpha || c.isUpper)

/-- A raw CSV cell that `pd.to_numeric(errors='coerce')` will be applied to:
either a numeric value, a non-numeric string, or a missing entry. -/
inductive RawVal where
  | num (q : ℚ)
  | str (s : String)
  | null
deriving DecidableEq

/-- Model of `pd.to_numeric(errors='coerce')` on one cell: numeric cells
survive, non-numeric strings and missing cells coerce to missing. -/
def toNumeric : RawVal → Option ℚ
  | .num q => some q
  | .str _ => none
  | .null => none

/-- Keep-first deduplication worker: `seen` collects the keys already kept.
Models `DataFrame.drop_duplicates(subset=…, keep='first')`. -/
def dedupGo [DecidableEq κ] (key : α → κ) (seen : List κ) : List α → List α
  | [] => []
  | x :: xs =>
    if key x ∈ seen then dedupGo key seen xs
    else x :: dedupGo key (key x :: seen) xs

/-- Model of `DataFrame.drop_duplicates(subset=key, keep='first')`. -/
def dedupOn [DecidableEq κ] (key : α → κ) (l : List α) : List α :=
  dedupGo key [] l

/-- Stable insertion used by `stableSort`: `x` is placed before the first
element `y` with `lt y x = false`, so earlier rows stay before equal rows. -/
def insSorted (lt : α → α → Bool) (x : α) : List α → List α
  | [] => [x]
  | y :: ys => if lt y x then y :: insSorted lt x ys else x :: y :: ys

/-- Stable insertion sort.  For a multi-column `DataFrame.sort_values`
(performed by pandas via the stable `np.lexsort`) this is the exact model;
for a single-column `sort_values` with the default unstable quicksort it is
only one admissible result among the permutations sorted on the key. -/
def stableSort (lt : α → α → Bool) : List α → List α
  | [] => []
  | x :: xs => insSorted lt x (stableSort lt xs)

/-- Sum of a list of rationals. -/
def qSum (l : List ℚ) : ℚ := l.foldr (· + ·) 0

/-- Model of `Series.mean()` on a nonempty group. -/
def qMean (l : List ℚ) : ℚ := qSum l / l.length

/-- Insert a year into a strictly sorted list of years, dropping duplicates:
a helper for modelling the sorted unique index of `groupby(year)`. -/
def insertYear (x : ℚ) : List ℚ → List ℚ
  | [] => [x]
  | y :: ys => if x < y then x :: y :: ys else if x = y then y :: ys else y :: insertYear x ys

/-- The sorted list of distinct years appearing in `l`. -/
def sortedYears (l : List ℚ) : List ℚ := l.foldr insertYear []

/-- Model of `df.groupby(year)[value].mean().sort_index()` on a list of
`(year, value)` pairs: one `(year, mean)` pair per distinct year, ascending. -/
def yearly_avg_pairs (l : List (ℚ × ℚ)) : List (ℚ × ℚ) :=
  (sortedYears (l.map Prod.fst)).map
    (fun y => (y, qMean ((l.filter (fun p => decide (p.1 = y))).map Prod.snd)))

/-- Slope of `np.polyfit(xs, ys, 1)` (least-squares line) on `(x, y)` pairs. -/
def slope1 (pts : List (ℚ × ℚ)) : ℚ :=
  ((pts.length : ℚ) * qSum (pts.map (fun p => p.1 * p.2))
      - qSum (pts.map Prod.fst) * qSum (pts.map Prod.snd))
    / ((pts.length : ℚ) * qSum (pts.map (fun p => p.1 * p.1))
      - qSum (pts.map Prod.fst) * qSum (pts.map Prod.fst))

/-- Intercept of `np.polyfit(xs, ys, 1)` on `(x, y)` pairs. -/
def intercept1 (pts : List (ℚ × ℚ)) : ℚ :=
  (qSum (pts.map Prod.snd) - slope1 pts * qSum (pts.map Prod.fst)) / (pts.length : ℚ)

/-- One row of the `clean_nrg_ind_ren` dataset as the analytics functions see
it: a region, a year cell and a value cell (cells possibly non-numeric). -/
structure SeriesRow where
  geo : String
  timePeriod : RawVal
  obsValue : RawVal
deriving DecidableEq

/-- A row after `pd.to_numeric` coercion and `dropna` on year and value. -/
structure ObsRow where
  geo : String
  timePeriod : ℚ
  obsValue : ℚ
deriving DecidableEq

/-- Coerce one raw row, dropping it when year or value is non-numeric.
Models `to_numeric(errors='coerce')` followed by `dropna(subset=[year, value])`. -/
def coerceObs (r : SeriesRow) : Option ObsRow :=
  match toNumeric r.timePeriod, toNumeric r.obsValue with
  | some t, some v => some ⟨r.geo, t, v⟩
  | _, _ => none

/-- Model of the year-range filters `if year_from: …` / `if year_to: …`.
Python truthiness: a filter bound of `None` or `0` applies no filter. -/
def applyYearRange (yearFrom yearTo : Option ℚ) (l : List ObsRow) : List ObsRow :=
  let l1 := match yearFrom with
    | some y => if y ≠ 0 then l.filter (fun r => decide (y ≤ r.timePeriod)) else l
    | none => l
  match yearTo with
  | some y => if y ≠ 0 then l1.filter (fun r => decide (r.timePeriod ≤ y)) else l1
  | none => l1

/-- The shared prelude of the analytics queries: numeric coercion, dropna,
then the optional year-range filters. -/
def prepareSeries (yearFrom yearTo : Option ℚ) (df : List SeriesRow) : List ObsRow :=
  applyYearRange yearFrom yearTo (df.filterMap coerceObs)

/-- Model of `df.groupby(year)[value].mean().sort_index()` on prepared rows. -/
def yearly_avg (l : List ObsRow) : List (ℚ × ℚ) :=
  yearly_avg_pairs (l.map (fun r => (r.timePeriod, r.obsValue)))

/-- One entry of the `year_over_year_changes` output list. -/
structure YoYChange where
  fromYear : ℚ
  toYear : ℚ
  changePct : ℚ
  fromValue : ℚ
  toValue : ℚ
deriving DecidableEq

/-- Model of the year-over-year loop of `analyze_global_trends`: one entry per
consecutive pair of yearly averages, percent change 0 when the previous
average is 0. -/
def yoy_changes (ya : List (ℚ × ℚ)) : List YoYChange :=
  List.zipWith
    (fun p c => ⟨p.1, c.1, if p.2 ≠ 0 then (c.2 - p.2) / p.2 * 100 else 0, p.2, c.2⟩)
    ya ya.tail

/-- The outputs of `analyze_global_trends` relevant to its trend contract
(growth rate, direction, yearly averages, year-over-year changes, period). -/
inductive TrendReport where
  | err (msg : String)
  | report (overallGrowthRate : ℚ) (trendDirection : String)
      (yearlyAverages : List (ℚ × ℚ)) (yoy : List YoYChange)
      (periodFrom periodTo : ℚ)
deriving DecidableEq

/-- Model of `analyze_global_trends` (its trend-related outputs): prepare the
renewable-share series, error on empty data, regression slope and direction
when at least two yearly averages exist, else growth 0 and direction stable. -/
def analyze_global_trends (yearFrom yearTo : Option ℚ) (df : List SeriesRow) : TrendReport :=
  let d := prepareSeries yearFrom yearTo df
  if d.length = 0 then .err "No data available for the specified period"
  else
    let ya := yearly_avg d
    let growth : ℚ := if 2 ≤ ya.length then slope1 ya else 0
    let dir : String :=
      if 2 ≤ ya.length then
        if (1 : ℚ)/10 < slope1 ya then "increasing"
        else if slope1 ya < -(1/10 : ℚ) then "decreasing"
        else "stable"
      else "stable"
    .report growth dir ya (yoy_changes ya) ((ya.map Prod.fst).headD 0) ((ya.map Prod.fst).getLastD 0)

/-- Direction field of a trend report, `none` on the error marker. -/
def trendDirectionOf : TrendReport → Option String
  | .err _ => none
  | .report _ d _ _ _ _ => some d

/-- Growth-rate field of a trend report, `none` on the error marker. -/
def growthRateOf : TrendReport → Option ℚ
  | .err _ => none
  | .report g _ _ _ _ _ => some g

/-- Year-over-year list of a trend report, `none` on the error marker. -/
def yoyOf : TrendReport → Option (List YoYChange)
  | .err _ => none
  | .report _ _ _ y _ _ => some y

/-- Per-source observations of `compare_energy_sources` with absolute values
taken, `source_data_abs`: model of `source_data[value].abs()` on `(year, value)`
pairs. -/
def abs_values (data : List (ℚ × ℚ)) : List (ℚ × ℚ) :=
  data.map (fun p => (p.1, |p.2|))

/-- Model of `source_total`: sum of the absolute observation values. -/
def source_total (data : List (ℚ × ℚ)) : ℚ :=
  qSum ((abs_values data).map Prod.snd)

/-- Model of `source_by_year`: yearly means of the absolute values, sorted. -/
def source_by_year (data : List (ℚ × ℚ)) : List (ℚ × ℚ) :=
  yearly_avg_pairs (abs_values data)

/-- `values[0]` of the per-year series of `compare_energy_sources`. -/
def first_avg (data : List (ℚ × ℚ)) : ℚ :=
  ((source_by_year data).map Prod.snd).headD 0

/-- `values[-1]` of the per-year series of `compare_energy_sources`. -/
def last_avg (data : List (ℚ × ℚ)) : ℚ :=
  ((source_by_year data).map Prod.snd).getLastD 0

/-- `years[-1] - years[0]` of the per-year series (`num_years`). -/
def num_years (data : List (ℚ × ℚ)) : ℚ :=
  ((source_by_year data).map Prod.fst).getLastD 0 - ((source_by_year data).map Prod.fst).headD 0

/-- `np.mean(values)` over the per-year series of `compare_energy_sources`. -/
def mean_avg (data : List (ℚ × ℚ)) : ℚ :=
  qMean ((source_by_year data).map Prod.snd)

/-- The regression-slope-as-percent-of-mean fallback named by the
specification ("the linear-regression slope expressed as a percent of the
mean"), stated in the spec's own words for comparison with the code. -/
def regression_slope_pct_of_mean (data : List (ℚ × ℚ)) : ℚ :=
  slope1 (source_by_year data) / mean_avg data * 100

/-- Model of the `growth_rate` computation of `compare_energy_sources` for one
energy source's `(year, value)` observations: `None` unless the absolute total
is positive and at least two years exist; CAGR when first and last yearly
averages are positive over a positive span; `-100` when the last average is
zero ("complete decline"); else regression slope as percent of the mean when
the mean is positive, and `None` otherwise. -/
noncomputable def growth_rate (data : List (ℚ × ℚ)) : Option ℝ :=
  if 0 < source_total data ∧ 2 ≤ (source_by_year data).length then
    if 0 < first_avg data ∧ 0 < num_years data then
      if 0 < last_avg data then
        some ((Real.rpow ((last_avg data / first_avg data : ℚ) : ℝ)
                (1 / ((num_years data : ℚ) : ℝ)) - 1) * 100)
      else some (-100)
    else
      if 0 < mean_avg data then some ((regression_slope_pct_of_mean data : ℚ) : ℝ)
      else none
  else none

/-- Model of the region filter `df[geo].str.contains(region, case=False)`
applied by `forecast_renewable_energy`; an empty or absent region string
(`if region:`) applies no filter. -/
def region_filter (region : Option String) (df : List SeriesRow) : List SeriesRow :=
  match region with
  | some reg => if reg ≠ "" then df.filter (fun r => subStr (lowerStr reg) (lowerStr r.geo)) else df
  | none => df

/-- Model of `np.clip(x, lo, hi)`. -/
def np_clip (x lo hi : ℚ) : ℚ := max lo (min x hi)

/-- Residual sum of squares of the degree-1 fit over `(year, value)` pairs. -/
def ss_res (pts : List (ℚ × ℚ)) : ℚ :=
  qSum (pts.map (fun p => (p.2 - (slope1 pts * p.1 + intercept1 pts)) ^ 2))

/-- Total sum of squares of the values over `(year, value)` pairs. -/
def ss_tot (pts : List (ℚ × ℚ)) : ℚ :=
  qSum (pts.map (fun p => (p.2 - qMean (pts.map Prod.snd)) ^ 2))

/-- Model of the `r_squared` computation of `forecast_renewable_energy`:
`1 - ss_res/ss_tot` when `ss_tot > 0`, else `0`. -/
def r_squared (pts : List (ℚ × ℚ)) : ℚ :=
  if 0 < ss_tot pts then 1 - ss_res pts / ss_tot pts else 0

/-- The outputs of `forecast_renewable_energy` relevant to its contract:
historical yearly averages, forecast pairs, regression model and R². -/
inductive ForecastReport where
  | err (msg : String)
  | report (historical : List (ℚ × ℚ)) (forecast : List (ℚ × ℚ))
      (slope intercept rSquared : ℚ)
deriving DecidableEq

/-- Model of `forecast_renewable_energy`: optional region substring filter,
numeric coercion and year-range filter, yearly averages, then a degree-1
least-squares fit extrapolated `yearsAhead` years and clipped to [0, 100]. -/
def forecast_renewable_energy (region : Option String) (yearsAhead : ℕ)
    (yearFrom yearTo : Option ℚ) (df : List SeriesRow) : ForecastReport :=
  let d := prepareSeries yearFrom yearTo (region_filter region df)
  if d.length = 0 then .err "No data available for forecasting"
  else
    let ya := yearly_avg d
    if ya.length < 2 then .err "Insufficient data for forecasting (need at least 2 years)"
    else
      let s := slope1 ya
      let b := intercept1 ya
      let lastYear := (ya.map Prod.fst).getLastD 0
      .report ya
        ((List.range yearsAhead).map
          (fun i => (lastYear + 1 + (i : ℚ), np_clip (s * (lastYear + 1 + (i : ℚ)) + b) 0 100)))
        s b (r_squared ya)

/-- Forecast list of a forecast report, `none` on the error markers. -/
def forecastOf : ForecastReport → Option (List (ℚ × ℚ))
  | .err _ => none
  | .report _ f _ _ _ => some f

/-- One raw row of the `nrg_ind_ren` CSV after column projection. -/
structure RenRawRow where
  freq : String
  nrgBal : String
  unitName : String
  geo : String
  timePeriod : RawVal
  obsValue : RawVal
  lastUpdate : String
deriving DecidableEq

/-- One cleaned row of `clean_nrg_ind_ren`: year and value numeric. -/
structure RenCleanRow where
  freq : String
  nrgBal : String
  unitName : String
  geo : String
  timePeriod : ℚ
  obsValue : ℚ
  lastUpdate : String
deriving DecidableEq

/-- One raw row of the `nrg_bal` CSV after column projection. -/
structure BalRawRow where
  freq : String
  nrgBal : String
  siec : String
  unitName : String
  geo : String
  timePeriod : RawVal
  obsValue : RawVal
  lastUpdate : String
deriving DecidableEq

/-- One cleaned row of `clean_energy_balance`: year and value numeric. -/
structure BalCleanRow where
  freq : String
  nrgBal : String
  siec : String
  unitName : String
  geo : String
  timePeriod : ℚ
  obsValue : ℚ
  lastUpdate : String
deriving DecidableEq

/-- The fixed aggregate-region exclusion list of the cleaners. -/
def exclude_patterns : List String :=
  ["union", "european", "countries", "euro area", "eurozone"]

/-- Model of the aggregate-region mask
`geo.str.lower().str.contains('union|european|…')`. -/
def isAggregateGeo (geo : String) : Bool :=
  exclude_patterns.any (fun p => subStr p (lowerStr geo))

/-- Numeric coercion and dropna of one projected `nrg_ind_ren` row. -/
def coerceRen (r : RenRawRow) : Option RenCleanRow :=
  match toNumeric r.timePeriod, toNumeric r.obsValue with
  | some t, some v => some ⟨r.freq, r.nrgBal, r.unitName, r.geo, t, v, r.lastUpdate⟩
  | _, _ => none

/-- Model of `clean_nrg_ind_ren` on the projected raw table: strip `geo`,
coerce year/value dropping misses, drop aggregate regions, deduplicate on
`(geo, TIME_PERIOD, nrg_bal, unit)` keeping the first occurrence. -/
def clean_nrg_ind_ren (raw : List RenRawRow) : List RenCleanRow :=
  let stripped := raw.map (fun r => { r with geo := pyStrip r.geo })
  let numeric := stripped.filterMap coerceRen
  let noAgg := numeric.filter (fun r => !isAggregateGeo r.geo)
  dedupOn (fun r => (r.geo, r.timePeriod, r.nrgBal, r.unitName)) noAgg

/-- Numeric coercion and dropna of one projected `nrg_bal` row. -/
def coerceBal (r : BalRawRow) : Option BalCleanRow :=
  match toNumeric r.timePeriod, toNumeric r.obsValue with
  | some t, some v => some ⟨r.freq, r.nrgBal, r.siec, r.unitName, r.geo, t, v, r.lastUpdate⟩
  | _, _ => none

/-- Model of `clean_energy_balance` on the projected raw table: strip `geo`,
coerce year/value dropping misses, drop aggregate regions, deduplicate on
`(geo, TIME_PERIOD, nrg_bal, siec, unit)` keeping the first occurrence. -/
def clean_energy_balance (raw : List BalRawRow) : List BalCleanRow :=
  let stripped := raw.map (fun r => { r with geo := pyStrip r.geo })
  let numeric := stripped.filterMap coerceBal
  let noAgg := numeric.filter (fun r => !isAggregateGeo r.geo)
  dedupOn (fun r => (r.geo, r.timePeriod, r.nrgBal, r.siec, r.unitName)) noAgg

/-- The `(geo, TIME_PERIOD)` merge key of the primary (energy-balance) side. -/
def bal_key (r : BalCleanRow) : String × ℚ := (r.geo, r.timePeriod)

/-- Model of `unit_priority`: `0` when the unit contains `'Terajoule'`, else `1`. -/
def unit_priority (r : BalCleanRow) : ℕ :=
  if subStr "Terajoule" r.unitName then 0 else 1

/-- Comparison used by `sort_values('unit_priority')`. -/
def prio_lt (a b : BalCleanRow) : Bool :=
  decide (unit_priority a < unit_priority b)

/-- Admissibility predicate for the output of the single-column
`sort_values('unit_priority')`: any permutation of the input that is
non-decreasing in `unit_priority` is a possible result, since pandas'
default sort kind (`quicksort`) does not guarantee the relative order of
rows with equal keys.  Which admissible permutation the program produces is
unspecified. -/
def prio_sorted (s : List BalCleanRow) : Prop :=
  s.Pairwise (fun a b => unit_priority a ≤ unit_priority b)

/-- Model of the pre-merge deduplication of `merge_datasets` (STEP 5): sort
by unit priority (Terajoule first) and keep the first row per
`(geo, TIME_PERIOD)` key.  The unspecified-order quicksort of
`sort_values('unit_priority')` is instantiated here with a stable insertion
sort — one admissible linearization (see `prio_sorted`) — so that the
pipeline stays executable; properties meant to hold for the program must be
proved for every admissible linearization, not just this one. -/
def bal_dedup (l : List BalCleanRow) : List BalCleanRow :=
  dedupOn bal_key (stableSort prio_lt l)

/-- One row of the merged dataset produced by `merge_datasets`: the primary
energy-balance value plus the optional matched renewable-share fields. -/
structure MergedRow where
  freq : String
  geo : String
  timePeriod : ℚ
  obsValueNrgBal : ℚ
  lastUpdateNrgBal : String
  unitNrgBal : String
  obsValueNrgIndRen : Option ℚ
  lastUpdateNrgIndRen : Option String
  unitNrgIndRen : Option String
  nrgBalCategory : Option String
deriving DecidableEq

/-- The filtering of the primary side inside `merge_datasets` (STEPS 2-4):
strip `geo`, keep only `nrg_bal = 'Primary production'` and `siec = 'Total'`. -/
def bal_primary_filter (bal_df : List BalCleanRow) : List BalCleanRow :=
  ((bal_df.map (fun r => { r with geo := pyStrip r.geo })).filter
      (fun r => r.nrgBal == "Primary production")).filter
    (fun r => r.siec == "Total")

/-- Model of `merge_datasets`: filter the energy-balance side to primary
production totals, deduplicate it on `(geo, TIME_PERIOD)` preferring
Terajoule, then left-merge the renewable-share side on `(geo, TIME_PERIOD)`
(each primary row yields one output row per matching secondary row, or one
row with missing secondary fields when no match exists). -/
def merge_datasets (ren_df : List RenCleanRow) (bal_df : List BalCleanRow) : List MergedRow :=
  let bal_aggregated := bal_dedup (bal_primary_filter bal_df)
  let ren_prepared := ren_df.map (fun r => { r with geo := pyStrip r.geo })
  bal_aggregated.flatMap (fun b =>
    match ren_prepared.filter (fun r => r.geo == b.geo && decide (r.timePeriod = b.timePeriod)) with
    | [] => [⟨b.freq, b.geo, b.timePeriod, b.obsValue, b.lastUpdate, b.unitName,
              none, none, none, none⟩]
    | ms => ms.map (fun m =>
        ⟨b.freq, b.geo, b.timePeriod, b.obsValue, b.lastUpdate, b.unitName,
         some m.obsValue, some m.lastUpdate, some m.unitName, some m.nrgBal⟩))

/-- The `(geo, TIME_PERIOD)` key of a merged row. -/
def merged_key (r : MergedRow) : String × ℚ := (r.geo, r.timePeriod)

/-- One row of the merged dataset as seen by the time-series normalizer: a
region, a numeric year, and a value that may be missing. -/
structure NormRow where
  geo : String
  timePeriod : ℚ
  value : Option ℚ
deriving DecidableEq

/-- The `(geo, TIME_PERIOD)` lexicographic comparison of
`df.sort_values([geo_col, year_col])`. -/
def normRowLt (a b : NormRow) : Bool :=
  decide (a.geo < b.geo ∨ (a.geo = b.geo ∧ a.timePeriod < b.timePeriod))

/-- Model of `Series.interpolate(method='linear', limit_direction='both')` on
one region's year-ordered value sequence: interior gaps are filled by
position-linear interpolation between the nearest known neighbours, edge gaps
by the nearest known value, and an all-missing series stays missing. -/
def interpolateList (l : List (Option ℚ)) : List (Option ℚ) :=
  let known : List (ℕ × ℚ) := l.enum.filterMap (fun p => p.2.map (fun q => (p.1, q)))
  l.enum.map (fun p =>
    match p.2 with
    | some q => some q
    | none =>
      match (known.filter (fun k => k.1 ≤ p.1)).getLast?,
            (known.filter (fun k => p.1 ≤ k.1)).head? with
      | some kp, some kn =>
        some (kp.2 + (kn.2 - kp.2) * ((p.1 : ℚ) - (kp.1 : ℚ)) / ((kn.1 : ℚ) - (kp.1 : ℚ)))
      | some kp, none => some kp.2
      | none, some kn => some kn.2
      | none, none => none)

/-- Model of `clean_and_normalize_timeseries` under the `interpolate`
strategy on rows whose year and value columns are already numeric (as they
are at its call site in `preprocess_all_datasets`): sort by `(geo, year)`,
fill each region's missing values from that region's own series via
`groupby(geo).transform(interpolate)`, then drop rows whose year lies
outside [1900, 2100].  The returned statistics dict is not modelled. -/
def clean_and_normalize_interpolate (df : List NormRow) : List NormRow :=
  let sorted := stableSort normRowLt df
  let geos := dedupOn (fun g => g) (sorted.map (fun r => r.geo))
  let filled := geos.flatMap (fun g =>
    let grp := sorted.filter (fun r => r.geo == g)
    List.zipWith (fun r v => { r with value := v }) grp (interpolateList (grp.map (fun r => r.value))))
  filled.filter (fun r => decide (1900 ≤ r.timePeriod) && decide (r.timePeriod ≤ 2100))

/-- Test for the fast path of `get_nuts_code`:
`len(country_clean) == 2 and country_clean.isupper()`. -/
def isTwoUpper (s : String) : Bool :=
  decide (s.length = 2) && pyIsUpper s

/-- Model of `get_nuts_code`.  The fuzzy country-name resolution performed by
`pycountry.countries.search_fuzzy` (an external reference country table not
part of this repository) is abstracted as the `lookup` argument, which
returns `none` on lookup failure exactly as `_get_iso_code_auto` does after
catching `LookupError`.  A 2-letter uppercase (stripped) input is returned
directly; otherwise the lookup result is returned, with a falsy (empty)
result mapped to `none` by `if not iso_code: return None`. -/
def get_nuts_code (lookup : String → Option String) (country : String) : Option String :=
  let country_clean := pyStrip country
  if isTwoUpper country_clean then some country_clean
  else
    match lookup country_clean with
    | none => none
    | some iso_code => if iso_code = "" then none else some iso_code

/-- Model of the per-row `map_to_nuts` of `add_nuts_codes`: strip the geo
value and resolve it through the (semantically transparent) cache. -/
def map_to_nuts (lookup : String → Option String) (geo : String) : Option String :=
  get_nuts_code lookup (pyStrip geo)

/-- Model of `add_nuts_codes` on rows carrying a geo field and an arbitrary
payload: every row gains a `nuts_code` field resolved from its geo value. -/
def add_nuts_codes (lookup : String → Option String) (rows : List (String × α)) :
    List (Option String × String × α) :=
  rows.map (fun r => (map_to_nuts lookup r.1, r.1, r.2))

/-- Model of the statistic `nuts_codes_failed` of `add_nuts_codes`. -/
def nuts_codes_failed (lookup : String → Option String) (rows : List (String × α)) : ℕ :=
  ((add_nuts_codes lookup rows).filter (fun r => r.1.isNone)).length

/-- Model of the statistic `nuts_codes_added` of `add_nuts_codes`. -/
def nuts_codes_added (lookup : String → Option String) (rows : List (String × α)) : ℕ :=
  ((add_nuts_codes lookup rows).filter (fun r => r.1.isSome)).length

/-- Model of Step 5 of `preprocess_all_datasets`:
`merged_df[merged_df['nuts_code'].notna()]`. -/
def filter_nuts (lookup : String → Option String) (rows : List (String × α)) :
    List (Option String × String × α) :=
  (add_nuts_codes lookup rows).filter (fun r => r.1.isSome)

/-- The two delimiters attempted by `load_dataset`. -/
inductive Delim where
  | comma
  | semicolon
deriving DecidableEq

/-- The two encodings attempted by `load_dataset`. -/
inductive Enc where
  | utf8
  | latin1
deriving DecidableEq

/-- A parsed tabular dataset: a list of rows of cells. -/
abbrev Table := List (List String)

/-- Number of columns of a parsed table (width of its header row). -/
def num_columns (t : Table) : ℕ := (t.headD []).length

/-- The outcomes of `load_dataset`. -/
inductive LoadResult where
  | notFound (msg : String)
  | parseFailed (msg : String)
  | ok (t : Table)
deriving DecidableEq

/-- Model of `load_dataset`.  The behaviour of `pd.read_csv` on the backing
file is abstracted as `read`, giving for each delimiter/encoding pair either
a parsed table or a raised parse error.  `datasetAvailable` models whether
the dataset id appears in `get_available_datasets()` (which lists exactly
the ids whose backing file exists).  The code tries `(comma, utf-8)`, then
`(semicolon, utf-8)`, then `(comma, latin-1)`, without catching the third
attempt's error. -/
def load_dataset (datasetAvailable : Bool)
    (read : Delim → Enc → Except String Table) : LoadResult :=
  if datasetAvailable = false then .notFound "Dataset not found"
  else
    match read .comma .utf8 with
    | .ok df => .ok df
    | .error _ =>
      match read .semicolon .utf8 with
      | .ok df => .ok df
      | .error _ =>
        match read .comma .latin1 with
        | .ok df => .ok df
        | .error e => .parseFailed e

/-- The failure condition asserted by the claim, in the spec's own words:
some delimiter/encoding combination parses to a table with more than one
column. -/
def any_combo_multicolumn (read : Delim → Enc → Except String Table) : Prop :=
  ∃ d e t, read d e = Except.ok t ∧ 1 < num_columns t

/-- The claim's parse-failure contract, in the spec's own words: the loader
fails with a parse error exactly when no delimiter/encoding combination
yields more than one column. -/
def c7_parse_failure_iff (avail : Bool) (read : Delim → Enc → Except String Table) : Prop :=
  (∃ m, load_dataset avail read = .parseFailed m) ↔ ¬ any_combo_multicolumn read

/-- A single-column backing file: `pd.read_csv` parses it successfully (one
column) under every delimiter/encoding combination. -/
def read_one_column : Delim → Enc → Except String Table :=
  fun _ _ => Except.ok [["col"], ["v1"], ["v2"]]

/-- A cleaned renewable-share input in which the same `(geo, TIME_PERIOD)`
key carries two different `nrg_bal` categories; both rows survive
`clean_nrg_ind_ren`, whose deduplication key includes `nrg_bal`. -/
def c1_raw_ren : List RenRawRow :=
  [⟨"A", "Renewable energy - overall", "Percentage", "AL", .num 2014, .num 30, "10/01/2024"⟩,
   ⟨"A", "Renewable energy in transport", "Percentage", "AL", .num 2014, .num 40, "10/01/2024"⟩]

/-- A minimal energy-balance input: one primary-production total row. -/
def c1_raw_bal : List BalRawRow :=
  [⟨"A", "Primary production", "Total", "Terajoule", "AL", .num 2014, .num 100, "10/01/2024"⟩]

/-- Yearly values 10, 12, 14 over three consecutive years (slope 2). -/
def c4_df_inc : List SeriesRow :=
  [⟨"AL", .num 2010, .num 10⟩, ⟨"AL", .num 2011, .num 12⟩, ⟨"AL", .num 2012, .num 14⟩]

/-- Yearly values 10, 10.05, 10.08 over three consecutive years (slope 0.04). -/
def c4_df_stable : List SeriesRow :=
  [⟨"AL", .num 2010, .num 10⟩, ⟨"AL", .num 2011, .num (201/20)⟩, ⟨"AL", .num 2012, .num (252/25)⟩]

/-- A nonempty input with a single distinct year (2014). -/
def c10_df : List SeriesRow :=
  [⟨"AL", .num 2014, .num 10⟩, ⟨"BE", .num 2014, .num 20⟩]

/-- Source-type observations 100 in year 2010 and 200 in year 2020. -/
def c3_data_cagr : List (ℚ × ℚ) := [(2010, 100), (2020, 200)]

/-- Source-type observations whose yearly averages are 100 in year 2010 and
0 in year 2020: positive first average, zero last average, span 10. -/
def c3_data_zero_last : List (ℚ × ℚ) := [(2010, 100), (2020, 0)]

/-- Historical series 90 (year 2000), 99 (year 2001): the fitted line
predicts 108 for year 2002, above the 100-percent cap. -/
def c5_df : List SeriesRow :=
  [⟨"X", .num 2000, .num 90⟩, ⟨"X", .num 2001, .num 99⟩]

/-- Historical series 90 (year 2000), 79 (year 2001): the fitted line
predicts -52 for year 2002, below the 0-percent floor. -/
def c5_df_neg : List SeriesRow :=
  [⟨"X", .num 2000, .num 90⟩, ⟨"X", .num 2001, .num 19⟩]

/-- Region `X` with values 5, missing, 15 across three consecutive years. -/
def c6_df_x : List NormRow :=
  [⟨"X", 2000, some 5⟩, ⟨"X", 2001, none⟩, ⟨"X", 2002, some 15⟩]

/-- The same region-`X` series interleaved with unrelated region-`Y` rows. -/
def c6_df_xy : List NormRow :=
  [⟨"X", 2000, some 5⟩, ⟨"Y", 2000, some 1000⟩, ⟨"X", 2001, none⟩,
   ⟨"X", 2002, some 15⟩, ⟨"Y", 2002, some 0⟩]

/-- A concrete reference country table resolving only `"Portugal"`. -/
def pt_lookup : String → Option String :=
  fun s => if s = "Portugal" then some "PT" else none

/-- Merged rows whose regions are `"Portugal"` (resolvable) and `"Atlantis"`
(unresolvable), with a rational payload standing for the remaining fields. -/
def c2_rows : List (String × ℚ) := [("Portugal", 1), ("Atlantis", 2)]

/-- A Latin-1-encoded semicolon-delimited backing file: both UTF-8 attempts
raise decode errors and the `(comma, latin-1)` attempt parses. -/
def read_latin1_file : Delim → Enc → Except String Table :=
  fun d e =>
    match d, e with
    | .comma, .utf8 => Except.error "UnicodeDecodeError"
    | .semicolon, .utf8 => Except.error "UnicodeDecodeError"
    | .comma, .latin1 => Except.ok [["a;b"], ["1;2"]]
    | .semicolon, .latin1 => Except.ok [["a", "b"], ["1", "2"]]

/-- A backing file on which every parse attempt raises. -/
def read_broken_file : Delim → Enc → Except String Table :=
  fun d e =>
    match d, e with
    | .comma, .utf8 => Except.error "err comma utf8"
    | .semicolon, .utf8 => Except.error "err semicolon utf8"
    | .comma, .latin1 => Except.error "err comma latin1"
    | .semicolon, .latin1 => Except.error "err semicolon latin1"

/-- A raw renewable-share table with a clean row, a row with a non-numeric
year cell, and an aggregate-region row. -/
def c8_raw_ren : List RenRawRow :=
  [⟨"A", "REN", "Percentage", " AL ", .num 2014, .num 30, "u"⟩,
   ⟨"A", "REN", "Percentage", "BE", .str ":", .num 10, "u"⟩,
   ⟨"A", "REN", "Percentage", "European Union - 27 countries", .num 2014, .num 20, "u"⟩]

/-- A raw energy-balance table with a clean row and a missing-value row. -/
def c8_raw_bal : List BalRawRow :=
  [⟨"A", "Primary production", "Total", "Terajoule", "AL", .num 2014, .num 5, "u"⟩,
   ⟨"A", "Primary production", "Total", "Terajoule", "BE", .num 2014, .null, "u"⟩]

/-- A primary side holding the same `(AL, 2014)` observation in two units
(the Gigawatt-hour row first in original order) and one `(BE, 2014)` row. -/
def c9_rows : List BalCleanRow :=
  [⟨"A", "Primary production", "Total", "Gigawatt-hour", "AL", 2014, 360, "u"⟩,
   ⟨"A", "Primary production", "Total", "Terajoule", "AL", 2014, 100, "u"⟩,
   ⟨"A", "Primary production", "Total", "Gigawatt-hour", "BE", 2014, 50, "u"⟩]

/-- An admissible output of `sort_values('unit_priority')` on `c9_rows`:
sorted on the priority (the Terajoule row first) but with the two
equal-priority Gigawatt-hour rows in the opposite of their original order —
an order the default quicksort is allowed to produce. -/
def c9_rows_sorted : List BalCleanRow :=
  [⟨"A", "Primary production", "Total", "Terajoule", "AL", 2014, 100, "u"⟩,
   ⟨"A", "Primary production", "Total", "Gigawatt-hour", "BE", 2014, 50, "u"⟩,
   ⟨"A", "Primary production", "Total", "Gigawatt-hour", "AL", 2014, 360, "u"⟩]

/-- The first of two same-key rows without the canonical unit. -/
def c9_gwh_first : BalCleanRow :=
  ⟨"A", "Primary production", "Total", "Gigawatt-hour", "AL", 2014, 360, "u"⟩

/-- The second of two same-key rows without the canonical unit. -/
def c9_gwh_second : BalCleanRow :=
  ⟨"A", "Primary production", "Total", "Gigawatt-hour", "AL", 2014, 999, "v"⟩

/-- A primary side holding the same `(AL, 2014)` key twice, in two
non-canonical units, `c9_gwh_first` before `c9_gwh_second`. -/
def c9_same_key_rows : List BalCleanRow := [c9_gwh_first, c9_gwh_second]

/-- An admissible output of `sort_values('unit_priority')` on
`c9_same_key_rows`: both rows have equal priority 1, so every permutation is
sorted on the priority, including this one with the rows swapped. -/
def c9_swapped : List BalCleanRow := [c9_gwh_second, c9_gwh_first]

theorem dedupGo_subset [DecidableEq κ] (key : α → κ) :
    ∀ (l : List α) (seen : List κ) (a : α), a ∈ dedupGo key seen l → a ∈ l ∧ key a ∉ seen := by
  intro l
  induction l with
  | nil => intro seen a h; simp [dedupGo] at h
  | cons x xs ih =>
    intro seen a h
    by_cases hx : key x ∈ seen
    · simp only [dedupGo, if_pos hx] at h
      rcases ih seen a h with ⟨h1, h2⟩
      exact ⟨List.mem_cons_of_mem _ h1, h2⟩
    · simp only [dedupGo, if_neg hx] at h
      rcases List.mem_cons.mp h with h | h
      · exact ⟨by simp [h], by simpa [h] using hx⟩
      · rcases ih _ a h with ⟨h1, h2⟩
        simp only [List.mem_cons, not_or] at h2
        exact ⟨List.mem_cons_of_mem _ h1, h2.2⟩

theorem dedupGo_length_le [DecidableEq κ] (key : α → κ) :
    ∀ (l : List α) (seen : List κ), (dedupGo key seen l).length ≤ l.length := by
  intro l
  induction l with
  | nil => intro seen; simp [dedupGo]
  | cons x xs ih =>
    intro seen
    by_cases hx : key x ∈ seen
    · simp only [dedupGo, if_pos hx]
      exact Nat.le_succ_of_le (ih seen)
    · simp only [dedupGo, if_neg hx, List.length_cons]
      exact Nat.succ_le_succ (ih _)

theorem dedupGo_find [DecidableEq κ] (key : α → κ) :
    ∀ (l : List α) (seen : List κ) (a : α), a ∈ dedupGo key seen l →
      l.find? (fun x => decide (key x = key a)) = some a := by
  intro l
  induction l with
  | nil => intro seen a h; simp [dedupGo] at h
  | cons x xs ih =>
    intro seen a h
    by_cases hx : key x ∈ seen
    · simp only [dedupGo, if_pos hx] at h
      have hka := (dedupGo_subset key xs seen a h).2
      have hne : key x ≠ key a := fun he => hka (he ▸ hx)
      rw [List.find?_cons_of_neg _ (by simpa using hne)]
      exact ih seen a h
    · simp only [dedupGo, if_neg hx] at h
      rcases List.mem_cons.mp h with h | h
      · subst h
        exact List.find?_cons_of_pos _ (by simp)
      · have hka := (dedupGo_subset key xs _ a h).2
        simp only [List.mem_cons, not_or] at hka
        rw [List.find?_cons_of_neg _ (by simpa using fun he => hka.1 he.symm)]
        exact ih _ a h

theorem dedupGo_pairwise [DecidableEq κ] (key : α → κ) :
    ∀ (l : List α) (seen : List κ),
      (dedupGo key seen l).Pairwise (fun a b => key a ≠ key b) := by
  intro l
  induction l with
  | nil => intro seen; simp [dedupGo]
  | cons x xs ih =>
    intro seen
    by_cases hx : key x ∈ seen
    · simpa only [dedupGo, if_pos hx] using ih seen
    · simp only [dedupGo, if_neg hx]
      refine List.Pairwise.cons ?_ (ih _)
      intro b hb
      have := (dedupGo_subset key xs _ b hb).2
      simp only [List.mem_cons, not_or] at this
      exact fun he => this.1 he.symm
  
theorem dedupGo_covers [DecidableEq κ] (key : α → κ) :
    ∀ (l : List α) (seen : List κ) (r : α), r ∈ l → key r ∉ seen →
      ∃ a ∈ dedupGo key seen l, key a = key r := by
  intro l
  induction l with
  | nil => intro seen r h; simp at h
  | cons x xs ih =>
    intro seen r hr hseen
    by_cases hx : key x ∈ seen
    · simp only [dedupGo, if_pos hx]
      rcases List.mem_cons.mp hr with hr | hr
      · exact absurd (hr ▸ hx) hseen
      · exact ih seen r hr hseen
    · simp only [dedupGo, if_neg hx]
      rcases List.mem_cons.mp hr with hr | hr
      · exact ⟨x, by simp, by rw [hr]⟩
      · by_cases hk : key r = key x
        · exact ⟨x, by simp, hk.symm⟩
        · have : key r ∉ key x :: seen := by
            simp only [List.mem_cons, not_or]; exact ⟨hk, hseen⟩
          rcases ih _ r hr this with ⟨a, ha, hka⟩
          exact ⟨a, by simp [ha], hka⟩

theorem mem_dedupOn [DecidableEq κ] (key : α → κ) (l : List α) (a : α)
    (h : a ∈ dedupOn key l) : a ∈ l :=
  (dedupGo_subset key l [] a h).1

theorem dedupOn_length_le [DecidableEq κ] (key : α → κ) (l : List α) :
    (dedupOn key l).length ≤ l.length :=
  dedupGo_length_le key l []

theorem dedupOn_find [DecidableEq κ] (key : α → κ) (l : List α) (a : α)
    (h : a ∈ dedupOn key l) : l.find? (fun x => decide (key x = key a)) = some a :=
  dedupGo_find key l [] a h

theorem dedupOn_pairwise [DecidableEq κ] (key : α → κ) (l : List α) :
    (dedupOn key l).Pairwise (fun a b => key a ≠ key b) :=
  dedupGo_pairwise key l []

theorem dedupOn_covers [DecidableEq κ] (key : α → κ) (l : List α) (r : α) (hr : r ∈ l) :
    ∃ a ∈ dedupOn key l, key a = key r :=
  dedupGo_covers key l [] r hr (by simp)

theorem mem_insSorted (lt : α → α → Bool) (x a : α) :
    ∀ (l : List α), a ∈ insSorted lt x l ↔ a = x ∨ a ∈ l := by
  intro l
  induction l with
  | nil => simp [insSorted]
  | cons y ys ih =>
    by_cases hy : lt y x = true
    · simp only [insSorted, if_pos hy, List.mem_cons, ih]
      tauto
    · simp only [insSorted, if_neg hy, List.mem_cons]

theorem mem_stableSort (lt : α → α → Bool) (a : α) :
    ∀ (l : List α), a ∈ stableSort lt l ↔ a ∈ l := by
  intro l
  induction l with
  | nil => simp [stableSort]
  | cons x xs ih =>
    simp only [stableSort, mem_insSorted, ih, List.mem_cons]

theorem insSorted_of_forall (lt : α → α → Bool) (x : α) (l : List α)
    (h : ∀ z ∈ l, lt z x = false) : insSorted lt x l = x :: l := by
  cases l with
  | nil => rfl
  | cons y ys =>
    have := h y (by simp)
    simp [insSorted, this]

theorem pairwise_insSorted (lt : α → α → Bool)
    (hasymm : ∀ a b, lt a b = true → lt b a = false)
    (htrans : ∀ a b c, lt b a = false → lt c b = false → lt c a = false)
    (x : α) :
    ∀ (l : List α), l.Pairwise (fun a b => lt b a = false) →
      (insSorted lt x l).Pairwise (fun a b => lt b a = false) := by
  intro l
  induction l with
  | nil => intro _; simp [insSorted]
  | cons y ys ih =>
    intro hp
    rcases List.pairwise_cons.mp hp with ⟨hy, hys⟩
    by_cases hlt : lt y x = true
    · simp only [insSorted, if_pos hlt]
      refine List.pairwise_cons.mpr ⟨?_, ih hys⟩
      intro b hb
      rcases (mem_insSorted lt x b ys).mp hb with hb | hb
      · exact hb ▸ hasymm y x hlt
      · exact hy b hb
    · simp only [insSorted, if_neg hlt]
      refine List.pairwise_cons.mpr ⟨?_, hp⟩
      intro b hb
      rcases List.mem_cons.mp hb with hb | hb
      · exact hb ▸ (by simpa using hlt)
      · exact htrans x y b (by simpa using hlt) (hy b hb)

theorem pairwise_stableSort (lt : α → α → Bool)
    (hasymm : ∀ a b, lt a b = true → lt b a = false)
    (htrans : ∀ a b c, lt b a = false → lt c b = false → lt c a = false) :
    ∀ (l : List α), (stableSort lt l).Pairwise (fun a b => lt b a = false) := by
  intro l
  induction l with
  | nil => simp [stableSort]
  | cons x xs ih =>
    exact pairwise_insSorted lt hasymm htrans x _ ih

theorem filter_insSorted_neg (lt : α → α → Bool) (p : α → Bool) (x : α)
    (hpx : p x = false) :
    ∀ (l : List α), (insSorted lt x l).filter p = l.filter p := by
  intro l
  induction l with
  | nil => simp [insSorted, hpx]
  | cons y ys ih =>
    by_cases hy : lt y x = true
    · simp only [insSorted, if_pos hy, List.filter_cons]
      cases hpy : p y <;> simp [hpy, ih]
    · simp [insSorted, if_neg hy, List.filter_cons, hpx]

theorem filter_insSorted_pos (lt : α → α → Bool)
    (htrans : ∀ a b c, lt b a = false → lt c b = false → lt c a = false)
    (p : α → Bool) (x : α) (hpx : p x = true) :
    ∀ (l : List α), l.Pairwise (fun a b => lt b a = false) →
      (insSorted lt x l).filter p = insSorted lt x (l.filter p) := by
  intro l
  induction l with
  | nil => simp [insSorted, hpx]
  | cons y ys ih =>
    intro hp
    rcases List.pairwise_cons.mp hp with ⟨hy, hys⟩
    by_cases hlt : lt y x = true
    · simp only [insSorted, if_pos hlt, List.filter_cons]
      cases hpy : p y
      · simpa using ih hys
      · simp only [cond_true]
        rw [ih hys]
        have : insSorted lt x (y :: ys.filter p) = y :: insSorted lt x (ys.filter p) := by
          simp [insSorted, hlt]
        simp [List.filter_cons, hpy, this]
    · have hall : ∀ z ∈ (y :: ys).filter p, lt z x = false := by
        intro z hz
        rcases List.mem_filter.mp hz with ⟨hz, _⟩
        rcases List.mem_cons.mp hz with hz | hz
        · exact hz ▸ (by simpa using hlt)
        · exact htrans x y z (by simpa using hlt) (hy z hz)
      have h1 : insSorted lt x (y :: ys) = x :: y :: ys := by simp [insSorted, hlt]
      rw [h1, insSorted_of_forall lt x _ hall, List.filter_cons, hpx]
      simp

theorem filter_stableSort (lt : α → α → Bool)
    (hasymm : ∀ a b, lt a b = true → lt b a = false)
    (htrans : ∀ a b c, lt b a = false → lt c b = false → lt c a = false)
    (p : α → Bool) :
    ∀ (l : List α), (stableSort lt l).filter p = stableSort lt (l.filter p) := by
  intro l
  induction l with
  | nil => simp [stableSort]
  | cons x xs ih =>
    cases hpx : p x
    · rw [stableSort, filter_insSorted_neg lt p x hpx, ih, List.filter_cons, hpx]
      simp
    · rw [stableSort, filter_insSorted_pos lt htrans p x hpx _
            (pairwise_stableSort lt hasymm htrans xs), ih, List.filter_cons, hpx]
      simp [stableSort]

theorem find?_filter_of_imp (p q : α → Bool) :
    ∀ (l : List α), (∀ a ∈ l, p a = true → q a = true) →
      (l.filter q).find? p = l.find? p := by
  intro l
  induction l with
  | nil => intro _; simp
  | cons x xs ih =>
    intro h
    have hxs : ∀ a ∈ xs, p a = true → q a = true := fun a ha => h a (by simp [ha])
    cases hqx : q x
    · have hpx : p x = false := by
        cases hpx : p x
        · rfl
        · exact absurd (h x (by simp) hpx) (by simp [hqx])
      have hf : (x :: xs).filter q = xs.filter q := by simp [List.filter_cons, hqx]
      rw [hf, List.find?_cons_of_neg _ (by simp [hpx]), ih hxs]
    · have hf : (x :: xs).filter q = x :: xs.filter q := by simp [List.filter_cons, hqx]
      rw [hf]
      cases hpx : p x
      · rw [List.find?_cons_of_neg _ (by simp [hpx]), List.find?_cons_of_neg _ (by simp [hpx])]
        exact ih hxs
      · rw [List.find?_cons_of_pos _ hpx, List.find?_cons_of_pos _ hpx]

theorem unit_priority_cases (r : BalCleanRow) :
    unit_priority r = 0 ∨ unit_priority r = 1 := by
  unfold unit_priority
  by_cases h : subStr "Terajoule" r.unitName = true
  · left; simp [h]
  · right; simp [h]

theorem unit_priority_eq_zero (r : BalCleanRow) :
    unit_priority r = 0 ↔ subStr "Terajoule" r.unitName = true := by
  unfold unit_priority
  by_cases h : subStr "Terajoule" r.unitName = true <;> simp [h]

theorem insSorted_prio_partition (x : BalCleanRow) :
    ∀ (A B : List BalCleanRow), (∀ a ∈ A, unit_priority a = 0) →
      (∀ b ∈ B, unit_priority b = 1) →
      insSorted prio_lt x (A ++ B)
        = if unit_priority x = 0 then x :: (A ++ B) else A ++ x :: B := by
  intro A
  induction A with
  | nil =>
    intro B _ hB
    rcases unit_priority_cases x with hx | hx
    · rw [if_pos hx]
      refine insSorted_of_forall _ _ _ ?_
      intro z hz
      simp only [List.nil_append] at hz
      simp [prio_lt, hB z hz, hx]
    · rw [if_neg (by simp [hx])]
      simp only [List.nil_append]
      refine insSorted_of_forall _ _ _ ?_
      intro z hz
      simp [prio_lt, hB z hz, hx]
  | cons a A' ih =>
    intro B hA hB
    have ha : unit_priority a = 0 := hA a (by simp)
    have hA' : ∀ a' ∈ A', unit_priority a' = 0 := fun a' ha' => hA a' (by simp [ha'])
    rcases unit_priority_cases x with hx | hx
    · rw [if_pos hx]
      refine insSorted_of_forall _ _ _ ?_
      intro z hz
      rcases List.mem_append.mp hz with hz | hz
      · rcases List.mem_cons.mp hz with hz | hz
        · simp [prio_lt, hz, hx]
        · simp [prio_lt, hA' z hz, hx]
      · simp [prio_lt, hB z hz, hx]
    · rw [if_neg (by simp [hx])]
      have hlt : prio_lt a x = true := by simp [prio_lt, ha, hx]
      have hstep : insSorted prio_lt x ((a :: A') ++ B)
          = a :: insSorted prio_lt x (A' ++ B) := by
        simp [insSorted, hlt]
      rw [hstep, ih B hA' hB, if_neg (by simp [hx])]
      simp

theorem stableSort_prio_partition :
    ∀ (l : List BalCleanRow),
      stableSort prio_lt l
        = l.filter (fun r => decide (unit_priority r = 0))
            ++ l.filter (fun r => !decide (unit_priority r = 0)) := by
  intro l
  induction l with
  | nil => simp [stableSort]
  | cons x xs ih =>
    have hA : ∀ a ∈ xs.filter (fun r => decide (unit_priority r = 0)), unit_priority a = 0 := by
      intro a ha; simpa using (List.mem_filter.mp ha).2
    have hB : ∀ b ∈ xs.filter (fun r => !decide (unit_priority r = 0)), unit_priority b = 1 := by
      intro b hb
      have := (List.mem_filter.mp hb).2
      rcases unit_priority_cases b with h | h
      · simp [h] at this
      · exact h
    rw [stableSort, ih, insSorted_prio_partition x _ _ hA hB]
    rcases unit_priority_cases x with hx | hx
    · rw [if_pos hx, List.filter_cons, List.filter_cons]
      simp [hx]
    · rw [if_neg (by simp [hx]), List.filter_cons, List.filter_cons]
      simp [hx]

theorem normRowLt_false_iff (a b : NormRow) :
    normRowLt b a = false
      ↔ a.geo < b.geo ∨ (a.geo = b.geo ∧ a.timePeriod ≤ b.timePeriod) := by
  unfold normRowLt
  simp only [decide_eq_false_iff_not, not_or, not_and, not_lt]
  constructor
  · rintro ⟨h1, h2⟩
    rcases lt_trichotomy a.geo b.geo with h | h | h
    · exact Or.inl h
    · exact Or.inr ⟨h, h2 h.symm⟩
    · exact absurd h h1
  · rintro (h | ⟨h1, h2⟩)
    · exact ⟨fun h2 => absurd h (not_lt_of_gt h2), fun he => absurd he.symm (ne_of_lt h)⟩
    · exact ⟨by simp [h1, le_of_eq h1.symm], fun _ => h2⟩

theorem normRowLt_asymm (a b : NormRow) (h : normRowLt a b = true) :
    normRowLt b a = false := by
  rw [normRowLt_false_iff]
  unfold normRowLt at h
  simp only [decide_eq_true_eq] at h
  rcases h with h | ⟨h1, h2⟩
  · exact Or.inl h
  · exact Or.inr ⟨h1, le_of_lt h2⟩

theorem normRowLt_negtrans (a b c : NormRow)
    (h1 : normRowLt b a = false) (h2 : normRowLt c b = false) :
    normRowLt c a = false := by
  rw [normRowLt_false_iff] at h1 h2 ⊢
  rcases h1 with h1 | ⟨h1, h1'⟩ <;> rcases h2 with h2 | ⟨h2, h2'⟩
  · exact Or.inl (lt_trans h1 h2)
  · exact Or.inl (h2 ▸ h1)
  · exact Or.inl (h1 ▸ h2)
  · exact Or.inr ⟨h1.trans h2, le_trans h1' h2'⟩

theorem of_mem_zipWith (f : α → β → γ) :
    ∀ (l1 : List α) (l2 : List β) (c : γ), c ∈ List.zipWith f l1 l2 →
      ∃ a b, a ∈ l1 ∧ b ∈ l2 ∧ c = f a b := by
  intro l1
  induction l1 with
  | nil => intro l2 c h; simp at h
  | cons x xs ih =>
    intro l2 c h
    cases l2 with
    | nil => simp at h
    | cons y ys =>
      rcases List.mem_cons.mp h with h | h
      · exact ⟨x, y, by simp, by simp, h⟩
      · rcases ih ys c h with ⟨a, b, ha, hb, hc⟩
        exact ⟨a, b, by simp [ha], by simp [hb], hc⟩

theorem filter_flatMap (p : β → Bool) (f : α → List β) :
    ∀ (l : List α), (l.flatMap f).filter p = l.flatMap (fun a => (f a).filter p) := by
  intro l
  induction l with
  | nil => simp
  | cons x xs ih => simp [List.filter_append, ih]

theorem flatMap_ite_nil [DecidableEq α] (f : α → List β) (g : α) :
    ∀ (l : List α), l.Pairwise (fun a b => a ≠ b) →
      (l.flatMap (fun a => if a = g then f a else []))
        = if g ∈ l then f g else [] := by
  intro l
  induction l with
  | nil => intro _; simp
  | cons x xs ih =>
    intro hp
    rcases List.pairwise_cons.mp hp with ⟨hx, hxs⟩
    by_cases hxg : x = g
    · subst hxg
      have hgn : x ∉ xs := fun hmem => absurd rfl (hx x hmem)
      rw [List.flatMap_cons, if_pos rfl, ih hxs, if_neg hgn, if_pos (by simp)]
      simp
    · rw [List.flatMap_cons, if_neg hxg, ih hxs]
      have hiff : g ∈ x :: xs ↔ g ∈ xs := by
        constructor
        · intro hm
          rcases List.mem_cons.mp hm with he | hm
          · exact absurd he.symm hxg
          · exact hm
        · exact List.mem_cons_of_mem x
      rw [List.nil_append]
      exact (if_congr hiff.symm rfl rfl)

theorem mem_dedupOn_id [DecidableEq α] (a : α) (l : List α) :
    a ∈ dedupOn (fun x => x) l ↔ a ∈ l := by
  constructor
  · exact fun h => mem_dedupOn _ l a h
  · intro h
    rcases dedupOn_covers (fun x => x) l a h with ⟨b, hb, hba⟩
    exact hba ▸ hb

theorem normalize_filter_geo (df : List NormRow) (g : String) :
    (clean_and_normalize_interpolate df).filter (fun r => r.geo == g)
      = (List.zipWith (fun r v => { r with value := v })
            (stableSort normRowLt (df.filter (fun r => r.geo == g)))
            (interpolateList ((stableSort normRowLt (df.filter (fun r => r.geo == g))).map
              (fun r => r.value)))).filter
          (fun r => decide (1900 ≤ r.timePeriod) && decide (r.timePeriod ≤ 2100)) := by
  unfold clean_and_normalize_interpolate
  rw [List.filter_filter]
  have hcomm : (fun (r : NormRow) => r.geo == g && (decide (1900 ≤ r.timePeriod) && decide (r.timePeriod ≤ 2100)))
      = (fun (r : NormRow) => (decide (1900 ≤ r.timePeriod) && decide (r.timePeriod ≤ 2100)) && (r.geo == g)) := by
    funext r
    exact Bool.and_comm _ _
  rw [hcomm]
  rw [← List.filter_filter]
  have hblock : ∀ g' : String,
      ((List.zipWith (fun r v => { r with value := v })
          ((stableSort normRowLt df).filter (fun r => r.geo == g'))
          (interpolateList (((stableSort normRowLt df).filter (fun r => r.geo == g')).map
            (fun r => r.value)))).filter (fun r => r.geo == g))
        = if g' = g then
            List.zipWith (fun r v => { r with value := v })
              ((stableSort normRowLt df).filter (fun r => r.geo == g'))
              (interpolateList (((stableSort normRowLt df).filter (fun r => r.geo == g')).map
                (fun r => r.value)))
          else [] := by
    intro g'
    have hgeo : ∀ r' ∈ List.zipWith (fun (r : NormRow) v => { r with value := v })
        ((stableSort normRowLt df).filter (fun r => r.geo == g'))
        (interpolateList (((stableSort normRowLt df).filter (fun r => r.geo == g')).map
          (fun r => r.value))), r'.geo = g' := by
      intro r' hr'
      rcases of_mem_zipWith _ _ _ _ hr' with ⟨a, b, ha, _, hc⟩
      have : a.geo = g' := by simpa using (List.mem_filter.mp ha).2
      rw [hc]
      exact this
    by_cases hg : g' = g
    · subst hg
      rw [if_pos rfl]
      exact List.filter_eq_self.mpr (fun a ha => by simp [hgeo a ha])
    · rw [if_neg hg]
      exact List.filter_eq_nil_iff.mpr (fun a ha => by simp [hgeo a ha, hg])
  rw [filter_flatMap]
  have hrw : (fun g' => ((List.zipWith (fun (r : NormRow) v => { r with value := v })
        ((stableSort normRowLt df).filter (fun r => r.geo == g'))
        (interpolateList (((stableSort normRowLt df).filter (fun r => r.geo == g')).map
          (fun r => r.value)))).filter (fun r => r.geo == g)))
      = (fun g' => if g' = g then
            List.zipWith (fun (r : NormRow) v => { r with value := v })
              ((stableSort normRowLt df).filter (fun r => r.geo == g'))
              (interpolateList (((stableSort normRowLt df).filter (fun r => r.geo == g')).map
                (fun r => r.value)))
          else []) := funext hblock
  rw [hrw]
  have hpair : (dedupOn (fun x => x) ((stableSort normRowLt df).map (fun r => r.geo))).Pairwise
      (fun a b => a ≠ b) := dedupOn_pairwise (fun x => x) _
  have hite := flatMap_ite_nil
    (fun g' => List.zipWith (fun (r : NormRow) v => { r with value := v })
      ((stableSort normRowLt df).filter (fun r => r.geo == g'))
      (interpolateList (((stableSort normRowLt df).filter (fun r => r.geo == g')).map
        (fun r => r.value)))) g _ hpair
  rw [hite]
  have hsortfilter : (stableSort normRowLt df).filter (fun r => r.geo == g)
      = stableSort normRowLt (df.filter (fun r => r.geo == g)) :=
    filter_stableSort normRowLt normRowLt_asymm normRowLt_negtrans _ df
  by_cases hmem : g ∈ dedupOn (fun x => x) ((stableSort normRowLt df).map (fun r => r.geo))
  · rw [if_pos hmem]
    simp only [hsortfilter]
  · rw [if_neg hmem]
    have hnone : df.filter (fun r => r.geo == g) = [] := by
      rw [List.filter_eq_nil_iff]
      intro a ha hgeq
      refine hmem ?_
      rw [mem_dedupOn_id]
      exact List.mem_map.mpr ⟨a, (mem_stableSort normRowLt a df).mpr ha, by simpa using hgeq⟩
    rw [hnone]
    simp [stableSort]

theorem pyWhitespace_of_isUpper (c : Char) (h : c.isUpper = true) :
    pyWhitespace c = false := by
  cases hw : pyWhitespace c
  · rfl
  · exfalso
    simp only [pyWhitespace, Bool.or_eq_true, decide_eq_true_eq, or_assoc] at hw
    rcases hw with h1 | h1 | h1 | h1 | h1 | h1 <;> subst h1 <;> exact absurd h (by decide)

theorem dropWhile_eq_self_of_false (p : α → Bool) :
    ∀ (l : List α), (∀ c ∈ l, p c = false) → l.dropWhile p = l := by
  intro l h
  cases l with
  | nil => rfl
  | cons x xs =>
    rw [List.dropWhile_cons_of_neg (by simp [h x (by simp)])]

theorem asString_toList_eq (s : String) : s.toList.asString = s := by
  cases s
  rfl

theorem pyStrip_eq_self (s : String) (h : ∀ c ∈ s.toList, pyWhitespace c = false) :
    pyStrip s = s := by
  unfold pyStrip
  rw [dropWhile_eq_self_of_false _ _ h,
      dropWhile_eq_self_of_false _ _ (fun c hc => h c (by simpa using hc)),
      List.reverse_reverse, asString_toList_eq]

theorem pyStrip_of_upper (s : String) (h : ∀ c ∈ s.toList, c.isUpper = true) :
    pyStrip s = s :=
  pyStrip_eq_self s (fun c hc => pyWhitespace_of_isUpper c (h c hc))

theorem pyIsUpper_of_upper (s : String) (hne : s.toList ≠ [])
    (h : ∀ c ∈ s.toList, c.isUpper = true) : pyIsUpper s = true := by
  have hex : ∃ c ∈ s.toList, c.isAlpha = true := by
    cases hl : s.toList with
    | nil => exact absurd hl hne
    | cons x xs =>
      have hx : x.isUpper = true := h x (by rw [hl]; exact List.mem_cons_self x xs)
      refine ⟨x, List.mem_cons_self x xs, ?_⟩
      unfold Char.isAlpha
      simp [hx]
  have h1 : (s.toList.any fun c => c.isAlpha) = true := List.any_eq_true.mpr hex
  have h2 : (s.toList.all fun c => !c.isAlpha || c.isUpper) = true := by
    refine List.all_eq_true.mpr ?_
    intro c hc
    simp [h c hc]
  unfold pyIsUpper
  rw [h1, h2]
  rfl

theorem toList_length_eq (s : String) : s.toList.length = s.length := rfl

theorem isTwoUpper_of_upper (s : String) (h2 : s.length = 2)
    (h : ∀ c ∈ s.toList, c.isUpper = true) : isTwoUpper s = true := by
  unfold isTwoUpper
  have hne : s.toList ≠ [] := by
    intro hnil
    have := toList_length_eq s
    rw [hnil, h2] at this
    simp at this
  simp [h2, pyIsUpper_of_upper s hne h]

theorem coerceRen_spec (s : RenRawRow) (r : RenCleanRow) (h : coerceRen s = some r) :
    toNumeric s.timePeriod = some r.timePeriod ∧ toNumeric s.obsValue = some r.obsValue := by
  unfold coerceRen at h
  rcases ht : toNumeric s.timePeriod with _ | t
  · rw [ht] at h; simp at h
  · rcases hv : toNumeric s.obsValue with _ | v
    · rw [ht, hv] at h; simp at h
    · rw [ht, hv] at h
      simp only [Option.some.injEq] at h
      subst h
      exact ⟨rfl, rfl⟩

theorem coerceBal_spec (s : BalRawRow) (r : BalCleanRow) (h : coerceBal s = some r) :
    toNumeric s.timePeriod = some r.timePeriod ∧ toNumeric s.obsValue = some r.obsValue := by
  unfold coerceBal at h
  rcases ht : toNumeric s.timePeriod with _ | t
  · rw [ht] at h; simp at h
  · rcases hv : toNumeric s.obsValue with _ | v
    · rw [ht, hv] at h; simp at h
    · rw [ht, hv] at h
      simp only [Option.some.injEq] at h
      subst h
      exact ⟨rfl, rfl⟩

theorem yearly_avg_nil : yearly_avg [] = [] := rfl

theorem prepare_ne_nil_of_two_years (yf yt : Option ℚ) (df : List SeriesRow)
    (h2 : 2 ≤ (yearly_avg (prepareSeries yf yt df)).length) :
    ¬ (prepareSeries yf yt df).length = 0 := by
  intro h0
  rw [List.length_eq_zero.mp h0, yearly_avg_nil] at h2
  simp at h2

/-- C10: in the global-trend query, a nonempty filtered input with exactly one
distinct year is not an error: the report carries overall growth rate 0,
direction "stable", and an empty year-over-year change list. -/
theorem c10_single_year_stable (yf yt : Option ℚ) (df : List SeriesRow)
    (hne : prepareSeries yf yt df ≠ [])
    (h1 : (yearly_avg (prepareSeries yf yt df)).length = 1) :
    analyze_global_trends yf yt df
      = .report 0 "stable" (yearly_avg (prepareSeries yf yt df)) []
          (((yearly_avg (prepareSeries yf yt df)).map Prod.fst).headD 0)
          (((yearly_avg (prepareSeries yf yt df)).map Prod.fst).getLastD 0) := by
  have h0 : ¬ (prepareSeries yf yt df).length = 0 := by
    simpa [List.length_eq_zero] using hne
  have hlt : ¬ 2 ≤ (yearly_avg (prepareSeries yf yt df)).length := by
    rw [h1]
    omega
  simp only [analyze_global_trends]
  rw [if_neg h0, if_neg hlt, if_neg hlt]
  rcases List.length_eq_one.mp h1 with ⟨a, ha⟩
  rw [ha]
  simp [yoy_changes]

/-- C4: in the global-trend query with at least two distinct years, the
direction is "increasing" exactly when the regression slope exceeds 0.1,
"decreasing" exactly when it is below -0.1, and "stable" otherwise; the
reported growth rate is the regression slope; and every year-over-year entry
carries percent change ((curr - prev)/prev)*100, or 0 when prev is 0. -/
theorem c4_trend_classification (yf yt : Option ℚ) (df : List SeriesRow)
    (h2 : 2 ≤ (yearly_avg (prepareSeries yf yt df)).length) :
    (trendDirectionOf (analyze_global_trends yf yt df) = some "increasing"
        ↔ 1/10 < slope1 (yearly_avg (prepareSeries yf yt df)))
    ∧ (trendDirectionOf (analyze_global_trends yf yt df) = some "decreasing"
        ↔ slope1 (yearly_avg (prepareSeries yf yt df)) < -(1/10))
    ∧ (trendDirectionOf (analyze_global_trends yf yt df) = some "stable"
        ↔ (¬ 1/10 < slope1 (yearly_avg (prepareSeries yf yt df))
            ∧ ¬ slope1 (yearly_avg (prepareSeries yf yt df)) < -(1/10)))
    ∧ growthRateOf (analyze_global_trends yf yt df)
        = some (slope1 (yearly_avg (prepareSeries yf yt df)))
    ∧ yoyOf (analyze_global_trends yf yt df)
        = some (yoy_changes (yearly_avg (prepareSeries yf yt df)))
    ∧ ∀ e ∈ yoy_changes (yearly_avg (prepareSeries yf yt df)),
        e.changePct
          = if e.fromValue ≠ 0 then (e.toValue - e.fromValue) / e.fromValue * 100 else 0 := by
  have h0 := prepare_ne_nil_of_two_years yf yt df h2
  have hres : analyze_global_trends yf yt df
      = .report (slope1 (yearly_avg (prepareSeries yf yt df)))
          (if 1/10 < slope1 (yearly_avg (prepareSeries yf yt df)) then "increasing"
           else if slope1 (yearly_avg (prepareSeries yf yt df)) < -(1/10) then "decreasing"
           else "stable")
          (yearly_avg (prepareSeries yf yt df))
          (yoy_changes (yearly_avg (prepareSeries yf yt df)))
          (((yearly_avg (prepareSeries yf yt df)).map Prod.fst).headD 0)
          (((yearly_avg (prepareSeries yf yt df)).map Prod.fst).getLastD 0) := by
    simp only [analyze_global_trends]
    rw [if_neg h0, if_pos h2, if_pos h2]
  have hyoy : ∀ e ∈ yoy_changes (yearly_avg (prepareSeries yf yt df)),
      e.changePct
        = if e.fromValue ≠ 0 then (e.toValue - e.fromValue) / e.fromValue * 100 else 0 := by
    intro e he
    rcases of_mem_zipWith _ _ _ e he with ⟨p, c, _, _, he'⟩
    subst he'
    rfl
  rw [hres]
  simp only [trendDirectionOf, growthRateOf, yoyOf]
  by_cases hc1 : 1/10 < slope1 (yearly_avg (prepareSeries yf yt df))
  · rw [if_pos hc1]
    exact ⟨iff_of_true rfl hc1,
      iff_of_false (fun h => absurd (Option.some.inj h) (by decide))
        (not_lt_of_gt (lt_trans (by norm_num) hc1)),
      iff_of_false (fun h => absurd (Option.some.inj h) (by decide)) (fun hh => hh.1 hc1),
      trivial, trivial, hyoy⟩
  · by_cases hc2 : slope1 (yearly_avg (prepareSeries yf yt df)) < -(1/10)
    · rw [if_neg hc1, if_pos hc2]
      exact ⟨iff_of_false (fun h => absurd (Option.some.inj h) (by decide)) hc1,
        iff_of_true rfl hc2,
        iff_of_false (fun h => absurd (Option.some.inj h) (by decide)) (fun hh => hh.2 hc2),
        trivial, trivial, hyoy⟩
    · rw [if_neg hc1, if_neg hc2]
      exact ⟨iff_of_false (fun h => absurd (Option.some.inj h) (by decide)) hc1,
        iff_of_false (fun h => absurd (Option.some.inj h) (by decide)) hc2,
        iff_of_true rfl ⟨hc1, hc2⟩, trivial, trivial, hyoy⟩

/-- Witness for C4: yearly values 10, 12, 14 over 2010-2012 yield slope 2 and
direction "increasing"; values 10, 10.05, 10.08 yield slope 1/25 = 0.04 and
direction "stable". -/
theorem c4_trend_classification_witness :
    slope1 (yearly_avg (prepareSeries none none c4_df_inc)) = 2
    ∧ trendDirectionOf (analyze_global_trends none none c4_df_inc) = some "increasing"
    ∧ slope1 (yearly_avg (prepareSeries none none c4_df_stable)) = 1/25
    ∧ trendDirectionOf (analyze_global_trends none none c4_df_stable) = some "stable" := by
  have hsl1 : slope1 (yearly_avg (prepareSeries none none c4_df_inc)) = 2 := by
    norm_num [prepareSeries, applyYearRange, c4_df_inc, coerceObs, toNumeric, List.filterMap,
      yearly_avg, yearly_avg_pairs, sortedYears, insertYear, qMean, qSum, List.filter, slope1]
  have hsl2 : slope1 (yearly_avg (prepareSeries none none c4_df_stable)) = 1/25 := by
    norm_num [prepareSeries, applyYearRange, c4_df_stable, coerceObs, toNumeric, List.filterMap,
      yearly_avg, yearly_avg_pairs, sortedYears, insertYear, qMean, qSum, List.filter, slope1]
  have hlen1 : 2 ≤ (yearly_avg (prepareSeries none none c4_df_inc)).length := by
    norm_num [prepareSeries, applyYearRange, c4_df_inc, coerceObs, toNumeric, List.filterMap,
      yearly_avg, yearly_avg_pairs, sortedYears, insertYear, qMean, qSum, List.filter]
  have hlen2 : 2 ≤ (yearly_avg (prepareSeries none none c4_df_stable)).length := by
    norm_num [prepareSeries, applyYearRange, c4_df_stable, coerceObs, toNumeric, List.filterMap,
      yearly_avg, yearly_avg_pairs, sortedYears, insertYear, qMean, qSum, List.filter]
  refine ⟨hsl1, ?_, hsl2, ?_⟩
  · exact (c4_trend_classification none none c4_df_inc hlen1).1.mpr (by rw [hsl1]; norm_num)
  · refine (c4_trend_classification none none c4_df_stable hlen2).2.2.1.mpr ?_
    rw [hsl2]
    norm_num

/-- Witness for C10: a two-region input for the single year 2014 yields a
"stable" report with growth 0 and no year-over-year entries. -/
theorem c10_single_year_stable_witness :
    analyze_global_trends none none c10_df
      = .report 0 "stable" [(2014, 15)] [] 2014 2014 := by
  have hya : yearly_avg (prepareSeries none none c10_df) = [(2014, 15)] := by
    norm_num [prepareSeries, applyYearRange, c10_df, coerceObs, toNumeric, List.filterMap,
      yearly_avg, yearly_avg_pairs, sortedYears, insertYear, qMean, qSum, List.filter]
  have h := c10_single_year_stable none none c10_df
    (by
      simp [prepareSeries, applyYearRange, c10_df, coerceObs, toNumeric, List.filterMap])
    (by rw [hya]; rfl)
  rw [h, hya]
  norm_num

/-- C5: in the forecast query with at least two distinct years, every
forecast value is the regression extrapolation clipped to [0, 100] (a
prediction of 105 is reported as exactly 100, a negative prediction as 0),
and R² is 1 - ss_res/ss_tot, or 0 when the series is constant. -/
theorem c5_forecast_clipped (region : Option String) (yearsAhead : ℕ) (yf yt : Option ℚ)
    (df : List SeriesRow)
    (h2 : 2 ≤ (yearly_avg (prepareSeries yf yt (region_filter region df))).length) :
    forecast_renewable_energy region yearsAhead yf yt df
      = .report (yearly_avg (prepareSeries yf yt (region_filter region df)))
          ((List.range yearsAhead).map (fun i =>
            (((yearly_avg (prepareSeries yf yt (region_filter region df))).map Prod.fst).getLastD 0
                + 1 + (i : ℚ),
             np_clip (slope1 (yearly_avg (prepareSeries yf yt (region_filter region df)))
                  * (((yearly_avg (prepareSeries yf yt (region_filter region df))).map Prod.fst).getLastD 0
                    + 1 + (i : ℚ))
                + intercept1 (yearly_avg (prepareSeries yf yt (region_filter region df)))) 0 100)))
          (slope1 (yearly_avg (prepareSeries yf yt (region_filter region df))))
          (intercept1 (yearly_avg (prepareSeries yf yt (region_filter region df))))
          (r_squared (yearly_avg (prepareSeries yf yt (region_filter region df))))
    ∧ (∀ p ∈ (List.range yearsAhead).map (fun i =>
          (((yearly_avg (prepareSeries yf yt (region_filter region df))).map Prod.fst).getLastD 0
              + 1 + (i : ℚ),
           np_clip (slope1 (yearly_avg (prepareSeries yf yt (region_filter region df)))
                * (((yearly_avg (prepareSeries yf yt (region_filter region df))).map Prod.fst).getLastD 0
                  + 1 + (i : ℚ))
              + intercept1 (yearly_avg (prepareSeries yf yt (region_filter region df)))) 0 100)),
        p.2 = np_clip (slope1 (yearly_avg (prepareSeries yf yt (region_filter region df))) * p.1
            + intercept1 (yearly_avg (prepareSeries yf yt (region_filter region df)))) 0 100
        ∧ (slope1 (yearly_avg (prepareSeries yf yt (region_filter region df))) * p.1
            + intercept1 (yearly_avg (prepareSeries yf yt (region_filter region df))) = 105
            → p.2 = 100)
        ∧ (slope1 (yearly_avg (prepareSeries yf yt (region_filter region df))) * p.1
            + intercept1 (yearly_avg (prepareSeries yf yt (region_filter region df))) < 0
            → p.2 = 0))
    ∧ (ss_tot (yearly_avg (prepareSeries yf yt (region_filter region df))) = 0
        → r_squared (yearly_avg (prepareSeries yf yt (region_filter region df))) = 0)
    ∧ (0 < ss_tot (yearly_avg (prepareSeries yf yt (region_filter region df)))
        → r_squared (yearly_avg (prepareSeries yf yt (region_filter region df)))
            = 1 - ss_res (yearly_avg (prepareSeries yf yt (region_filter region df)))
                / ss_tot (yearly_avg (prepareSeries yf yt (region_filter region df)))) := by
  have h0 := prepare_ne_nil_of_two_years yf yt (region_filter region df) h2
  have hlt : ¬ (yearly_avg (prepareSeries yf yt (region_filter region df))).length < 2 :=
    not_lt.mpr h2
  refine ⟨?_, ?_, ?_, ?_⟩
  · simp only [forecast_renewable_energy]
    rw [if_neg h0, if_neg hlt]
  · intro p hp
    rcases List.mem_map.mp hp with ⟨i, _, hpe⟩
    subst hpe
    refine ⟨rfl, ?_, ?_⟩
    · intro h105
      simp only
      rw [h105]
      unfold np_clip
      norm_num
    · intro hneg
      simp only
      unfold np_clip
      rw [min_eq_left (le_of_lt (lt_of_lt_of_le hneg (by norm_num)))]
      exact max_eq_left (le_of_lt hneg)
  · intro hzero
    unfold r_squared
    rw [if_neg (by rw [hzero]; exact lt_irrefl 0)]
  · intro hpos
    unfold r_squared
    rw [if_pos hpos]

/-- Witness for C5: series 90, 99 over 2000-2001 fits slope 9, intercept
-17910 and predicts 108 for 2002, reported as exactly 100; series 90, 19
predicts -52 for 2002, reported as exactly 0; both fits have R² = 1. -/
theorem c5_forecast_clipped_witness :
    forecast_renewable_energy none 1 none none c5_df
      = .report [(2000, 90), (2001, 99)] [(2002, 100)] 9 (-17910) 1
    ∧ forecast_renewable_energy none 1 none none c5_df_neg
      = .report [(2000, 90), (2001, 19)] [(2002, 0)] (-71) 142090 1 := by
  constructor
  · have hya : yearly_avg (prepareSeries none none (region_filter none c5_df))
        = [(2000, 90), (2001, 99)] := by
      norm_num [region_filter, prepareSeries, applyYearRange, c5_df, coerceObs, toNumeric,
        List.filterMap, yearly_avg, yearly_avg_pairs, sortedYears, insertYear, qMean, qSum,
        List.filter]
    have h := (c5_forecast_clipped none 1 none none c5_df (by rw [hya]; norm_num)).1
    rw [h, hya]
    norm_num [slope1, intercept1, qSum, qMean, np_clip, r_squared, ss_res, ss_tot, List.range_succ]
  · have hya : yearly_avg (prepareSeries none none (region_filter none c5_df_neg))
        = [(2000, 90), (2001, 19)] := by
      norm_num [region_filter, prepareSeries, applyYearRange, c5_df_neg, coerceObs, toNumeric,
        List.filterMap, yearly_avg, yearly_avg_pairs, sortedYears, insertYear, qMean, qSum,
        List.filter]
    have h := (c5_forecast_clipped none 1 none none c5_df_neg (by rw [hya]; norm_num)).1
    rw [h, hya]
    norm_num [slope1, intercept1, qSum, qMean, np_clip, r_squared, ss_res, ss_tot, List.range_succ]

/-- C3 (amended): the growth rate of `compare_energy_sources` for one source
is, given a positive absolute total and at least two distinct years: the CAGR
when first and last yearly absolute averages are positive over a positive
span; exactly -100 when the first average is positive over a positive span
but the last average is not; else the regression slope as a percent of the
mean when the mean is positive, and undefined otherwise; with fewer than two
years or a zero absolute total it is undefined. -/
theorem c3_growth_rate_amended (data : List (ℚ × ℚ)) :
    (0 < source_total data → 2 ≤ (source_by_year data).length →
      0 < first_avg data → 0 < num_years data → 0 < last_avg data →
      growth_rate data
        = some ((Real.rpow ((last_avg data / first_avg data : ℚ) : ℝ)
            (1 / ((num_years data : ℚ) : ℝ)) - 1) * 100))
    ∧ (0 < source_total data → 2 ≤ (source_by_year data).length →
      0 < first_avg data → 0 < num_years data → ¬ 0 < last_avg data →
      growth_rate data = some (-100))
    ∧ (0 < source_total data → 2 ≤ (source_by_year data).length →
      ¬ (0 < first_avg data ∧ 0 < num_years data) → 0 < mean_avg data →
      growth_rate data = some ((regression_slope_pct_of_mean data : ℚ) : ℝ))
    ∧ (0 < source_total data → 2 ≤ (source_by_year data).length →
      ¬ (0 < first_avg data ∧ 0 < num_years data) → ¬ 0 < mean_avg data →
      growth_rate data = none)
    ∧ (¬ (0 < source_total data ∧ 2 ≤ (source_by_year data).length) →
      growth_rate data = none) := by
  refine ⟨?_, ?_, ?_, ?_, ?_⟩
  · intro ht hl hf hn hla
    unfold growth_rate
    rw [if_pos ⟨ht, hl⟩, if_pos ⟨hf, hn⟩, if_pos hla]
  · intro ht hl hf hn hla
    unfold growth_rate
    rw [if_pos ⟨ht, hl⟩, if_pos ⟨hf, hn⟩, if_neg hla]
  · intro ht hl hfn hm
    unfold growth_rate
    rw [if_pos ⟨ht, hl⟩, if_neg hfn, if_pos hm]
  · intro ht hl hfn hm
    unfold growth_rate
    rw [if_pos ⟨ht, hl⟩, if_neg hfn, if_neg hm]
  · intro hn
    unfold growth_rate
    rw [if_neg hn]

/-- Counterexample for C3: for observations 100 (year 2010) and 0 (year
2020) the first yearly average is positive, the span is positive and the
last yearly average is 0, so the claim's CAGR case does not apply and the
claim prescribes the regression-slope-as-percent-of-mean fallback, -20; the
code instead returns exactly -100. -/
theorem c3_growth_rate_counterexample :
    0 < first_avg c3_data_zero_last
    ∧ last_avg c3_data_zero_last = 0
    ∧ 0 < num_years c3_data_zero_last
    ∧ growth_rate c3_data_zero_last = some (-100)
    ∧ regression_slope_pct_of_mean c3_data_zero_last = -20
    ∧ ((-100 : ℝ) ≠ ((-20 : ℚ) : ℝ)) := by
  have hsby : source_by_year c3_data_zero_last = [(2010, 100), (2020, 0)] := by
    norm_num [source_by_year, abs_values, c3_data_zero_last, yearly_avg_pairs, sortedYears,
      insertYear, qMean, qSum, List.filter]
  have hf : first_avg c3_data_zero_last = 100 := by
    unfold first_avg
    rw [hsby]
    rfl
  have hla : last_avg c3_data_zero_last = 0 := by
    unfold last_avg
    rw [hsby]
    rfl
  have hn : num_years c3_data_zero_last = 10 := by
    unfold num_years
    rw [hsby]
    norm_num
  have ht : 0 < source_total c3_data_zero_last := by
    norm_num [source_total, abs_values, c3_data_zero_last, qSum]
  have hgrow : growth_rate c3_data_zero_last = some (-100) := by
    refine (c3_growth_rate_amended c3_data_zero_last).2.1 ht ?_ ?_ ?_ ?_
    · rw [hsby]; norm_num
    · rw [hf]; norm_num
    · rw [hn]; norm_num
    · rw [hla]; norm_num
  have hslope : regression_slope_pct_of_mean c3_data_zero_last = -20 := by
    unfold regression_slope_pct_of_mean mean_avg
    rw [hsby]
    norm_num [slope1, qSum, qMean]
  exact ⟨by rw [hf]; norm_num, hla, by rw [hn]; norm_num, hgrow, hslope, by norm_num⟩

/-- Witness for C3 (amended): yearly absolute averages 100 (year 2010) and
200 (year 2020) yield the CAGR ((200/100)^(1/10) - 1) * 100. -/
theorem c3_growth_rate_amended_witness :
    growth_rate c3_data_cagr = some ((Real.rpow 2 (1/10) - 1) * 100) := by
  have hsby : source_by_year c3_data_cagr = [(2010, 100), (2020, 200)] := by
    norm_num [source_by_year, abs_values, c3_data_cagr, yearly_avg_pairs, sortedYears,
      insertYear, qMean, qSum, List.filter]
  have hf : first_avg c3_data_cagr = 100 := by
    unfold first_avg
    rw [hsby]
    rfl
  have hla : last_avg c3_data_cagr = 200 := by
    unfold last_avg
    rw [hsby]
    rfl
  have hn : num_years c3_data_cagr = 10 := by
    unfold num_years
    rw [hsby]
    norm_num
  have h := (c3_growth_rate_amended c3_data_cagr).1
    (by norm_num [source_total, abs_values, c3_data_cagr, qSum])
    (by rw [hsby]; norm_num)
    (by rw [hf]; norm_num)
    (by rw [hn]; norm_num)
    (by rw [hla]; norm_num)
  rw [h, hf, hla, hn]
  norm_num

/-- Counterexample for C7: on a single-column backing file every parse
attempt succeeds with a one-column table, so no delimiter/encoding
combination yields more than one column, yet the loader returns the table
successfully instead of failing with a parse error — refuting the claimed
"fails with a parse error exactly when no combination yields more than one
column". -/
theorem c7_loader_counterexample : ¬ c7_parse_failure_iff true read_one_column := by
  intro h
  have hok : load_dataset true read_one_column = .ok [["col"], ["v1"], ["v2"]] := rfl
  have hno : ¬ any_combo_multicolumn read_one_column := by
    rintro ⟨d, e, t, ht, hc⟩
    cases d <;> cases e <;>
      (injection ht with ht'; subst ht'; exact absurd hc (by decide))
  obtain ⟨m, hm⟩ := h.mpr hno
  rw [hok] at hm
  exact LoadResult.noConfusion hm

/-- C7 (amended): with no backing file the loader fails with a not-found
error; otherwise it attempts `(comma, utf-8)`, then `(semicolon, utf-8)`,
then `(comma, latin-1)`, returning the first successful parse regardless of
its column count, and fails with the third attempt's parse error exactly
when all three attempts raise; `(semicolon, latin-1)` is never attempted and
the column count plays no role. -/
theorem c7_loader_amended (read : Delim → Enc → Except String Table) :
    load_dataset false read = .notFound "Dataset not found"
    ∧ (∀ t, read .comma .utf8 = .ok t → load_dataset true read = .ok t)
    ∧ (∀ m t, read .comma .utf8 = .error m → read .semicolon .utf8 = .ok t →
        load_dataset true read = .ok t)
    ∧ (∀ m1 m2 t, read .comma .utf8 = .error m1 → read .semicolon .utf8 = .error m2 →
        read .comma .latin1 = .ok t → load_dataset true read = .ok t)
    ∧ (∀ m1 m2 m3, read .comma .utf8 = .error m1 → read .semicolon .utf8 = .error m2 →
        read .comma .latin1 = .error m3 → load_dataset true read = .parseFailed m3) := by
  refine ⟨rfl, ?_, ?_, ?_, ?_⟩
  · intro t h1
    simp [load_dataset, h1]
  · intro m t h1 h2
    simp [load_dataset, h1, h2]
  · intro m1 m2 t h1 h2 h3
    simp [load_dataset, h1, h2, h3]
  · intro m1 m2 m3 h1 h2 h3
    simp [load_dataset, h1, h2, h3]

/-- Witness for C7 (amended): a Latin-1 semicolon file loads through the
third attempt; a file on which every attempt raises yields the third
attempt's parse error. -/
theorem c7_loader_amended_witness :
    load_dataset true read_latin1_file = .ok [["a;b"], ["1;2"]]
    ∧ load_dataset true read_broken_file = .parseFailed "err comma latin1" :=
  ⟨(c7_loader_amended read_latin1_file).2.2.2.1 "UnicodeDecodeError" "UnicodeDecodeError"
      [["a;b"], ["1;2"]] rfl rfl rfl,
   (c7_loader_amended read_broken_file).2.2.2.2 "err comma utf8" "err semicolon utf8"
      "err comma latin1" rfl rfl rfl⟩

/-- C1 (code bug evaluation): two cleaned renewable-share rows share the
`(AL, 2014)` key with different `nrg_bal` categories (both survive
`clean_nrg_ind_ren`, whose deduplication key includes `nrg_bal`); the primary
side has exactly one `(AL, 2014)` row after its category/total filtering and
deduplication, yet `merge_datasets` emits two rows with the key `(AL, 2014)`
— a duplicate key, and one output row more than the primary side. -/
theorem c1_merge_duplicates_primary_key :
    clean_nrg_ind_ren c1_raw_ren
      = [⟨"A", "Renewable energy - overall", "Percentage", "AL", 2014, 30, "10/01/2024"⟩,
         ⟨"A", "Renewable energy in transport", "Percentage", "AL", 2014, 40, "10/01/2024"⟩]
    ∧ clean_energy_balance c1_raw_bal
      = [⟨"A", "Primary production", "Total", "Terajoule", "AL", 2014, 100, "10/01/2024"⟩]
    ∧ (bal_dedup (bal_primary_filter (clean_energy_balance c1_raw_bal))).length = 1
    ∧ (merge_datasets (clean_nrg_ind_ren c1_raw_ren) (clean_energy_balance c1_raw_bal)).map
        merged_key = [("AL", 2014), ("AL", 2014)] := by
  refine ⟨?_, ?_, ?_, ?_⟩ <;> decide

/-- C8: each cleaner's output has at most as many rows as its input, every
output row originates from an input row whose year and value cells both
coerce to numbers (rows with non-numeric cells are dropped), and no output
region matches the aggregate-exclusion patterns.  The cleaners are pure
functions of their input. -/
theorem c8_cleaning_invariants (rawR : List RenRawRow) (rawB : List BalRawRow) :
    ((clean_nrg_ind_ren rawR).length ≤ rawR.length
      ∧ ∀ r ∈ clean_nrg_ind_ren rawR, isAggregateGeo r.geo = false
          ∧ ∃ s ∈ rawR, toNumeric s.timePeriod = some r.timePeriod
              ∧ toNumeric s.obsValue = some r.obsValue)
    ∧ ((clean_energy_balance rawB).length ≤ rawB.length
      ∧ ∀ r ∈ clean_energy_balance rawB, isAggregateGeo r.geo = false
          ∧ ∃ s ∈ rawB, toNumeric s.timePeriod = some r.timePeriod
              ∧ toNumeric s.obsValue = some r.obsValue) := by
  constructor
  · constructor
    · calc (clean_nrg_ind_ren rawR).length
          ≤ (((rawR.map (fun r => { r with geo := pyStrip r.geo })).filterMap coerceRen).filter
              (fun r => !isAggregateGeo r.geo)).length := dedupOn_length_le _ _
        _ ≤ ((rawR.map (fun r => { r with geo := pyStrip r.geo })).filterMap coerceRen).length :=
            List.length_filter_le _ _
        _ ≤ (rawR.map (fun r => { r with geo := pyStrip r.geo })).length :=
            List.length_filterMap_le _ _
        _ = rawR.length := List.length_map _ _
    · intro r hr
      have hr' : r ∈ ((rawR.map (fun r => { r with geo := pyStrip r.geo })).filterMap
          coerceRen).filter (fun r => !isAggregateGeo r.geo) := mem_dedupOn _ _ r hr
      rcases List.mem_filter.mp hr' with ⟨hmem, hagg⟩
      refine ⟨by simpa using hagg, ?_⟩
      rcases List.mem_filterMap.mp hmem with ⟨s', hs', hcoe⟩
      rcases List.mem_map.mp hs' with ⟨s, hs, hse⟩
      rcases coerceRen_spec s' r hcoe with ⟨h1, h2⟩
      subst hse
      exact ⟨s, hs, h1, h2⟩
  · constructor
    · calc (clean_energy_balance rawB).length
          ≤ (((rawB.map (fun r => { r with geo := pyStrip r.geo })).filterMap coerceBal).filter
              (fun r => !isAggregateGeo r.geo)).length := dedupOn_length_le _ _
        _ ≤ ((rawB.map (fun r => { r with geo := pyStrip r.geo })).filterMap coerceBal).length :=
            List.length_filter_le _ _
        _ ≤ (rawB.map (fun r => { r with geo := pyStrip r.geo })).length :=
            List.length_filterMap_le _ _
        _ = rawB.length := List.length_map _ _
    · intro r hr
      have hr' : r ∈ ((rawB.map (fun r => { r with geo := pyStrip r.geo })).filterMap
          coerceBal).filter (fun r => !isAggregateGeo r.geo) := mem_dedupOn _ _ r hr
      rcases List.mem_filter.mp hr' with ⟨hmem, hagg⟩
      refine ⟨by simpa using hagg, ?_⟩
      rcases List.mem_filterMap.mp hmem with ⟨s', hs', hcoe⟩
      rcases List.mem_map.mp hs' with ⟨s, hs, hse⟩
      rcases coerceBal_spec s' r hcoe with ⟨h1, h2⟩
      subst hse
      exact ⟨s, hs, h1, h2⟩

/-- Witness for C8: on a raw input with a whitespace-padded region, a
non-numeric year row and an aggregate-region row, the cleaner keeps one row,
whose region is not an aggregate. -/
theorem c8_cleaning_invariants_witness :
    (clean_nrg_ind_ren c8_raw_ren).length ≤ c8_raw_ren.length
    ∧ isAggregateGeo (RenCleanRow.mk "A" "REN" "Percentage" "AL" 2014 30 "u").geo = false := by
  have h := (c8_cleaning_invariants c8_raw_ren c8_raw_bal).1
  exact ⟨h.1, (h.2 (RenCleanRow.mk "A" "REN" "Percentage" "AL" 2014 30 "u") (by decide)).1⟩

/-- C2: the region-code resolver returns a 2-letter uppercase input
unchanged, resolves other inputs through the (spec-modelled) fuzzy lookup
table, and returns `none` on lookup failure without raising; the orchestrator
excludes from the final merged dataset exactly the rows whose region
resolves to `none`, counts them in `nuts_codes_failed`, and gives surviving
rows exactly the resolver's code, never a placeholder. -/
theorem c2_region_code_resolution (lookup : String → Option String) :
    (∀ s : String, s.length = 2 → (∀ c ∈ s.toList, c.isUpper = true) →
        get_nuts_code lookup s = some s)
    ∧ (∀ s : String, isTwoUpper (pyStrip s) = false →
        get_nuts_code lookup s
          = (lookup (pyStrip s)).bind (fun c => if c = "" then none else some c))
    ∧ (∀ s : String, isTwoUpper (pyStrip s) = false → lookup (pyStrip s) = none →
        get_nuts_code lookup s = none)
    ∧ ∀ (α : Type) (rows : List (String × α)),
        nuts_codes_failed lookup rows
            = (rows.filter (fun r => (map_to_nuts lookup r.1).isNone)).length
        ∧ filter_nuts lookup rows
            = rows.filterMap (fun r => (map_to_nuts lookup r.1).map (fun c => (some c, r.1, r.2)))
        ∧ (filter_nuts lookup rows).length + nuts_codes_failed lookup rows = rows.length
        ∧ ∀ e ∈ filter_nuts lookup rows, e.1 = map_to_nuts lookup e.2.1 ∧ e.1.isSome = true := by
  have hbind : ∀ s : String, isTwoUpper (pyStrip s) = false →
      get_nuts_code lookup s
        = (lookup (pyStrip s)).bind (fun c => if c = "" then none else some c) := by
    intro s hfalse
    unfold get_nuts_code
    rw [if_neg (by simp [hfalse])]
    cases hl : lookup (pyStrip s)
    · rfl
    · rfl
  refine ⟨?_, hbind, ?_, ?_⟩
  · intro s h2 hup
    unfold get_nuts_code
    rw [pyStrip_of_upper s hup, if_pos (isTwoUpper_of_upper s h2 hup)]
  · intro s hfalse hnone
    rw [hbind s hfalse, hnone]
    rfl
  · intro α rows
    refine ⟨?_, ?_, ?_, ?_⟩
    · unfold nuts_codes_failed add_nuts_codes
      rw [List.filter_map, List.length_map]
      rfl
    · unfold filter_nuts add_nuts_codes
      induction rows with
      | nil => rfl
      | cons r rest ih =>
        cases hc : map_to_nuts lookup r.1 <;>
          simp [List.filter_cons, List.filterMap_cons, hc, ih]
    · unfold filter_nuts nuts_codes_failed
      have hpart : ∀ (m : List (Option String × String × α)),
          (m.filter (fun e => e.1.isSome)).length + (m.filter (fun e => e.1.isNone)).length
            = m.length := by
        intro m
        induction m with
        | nil => rfl
        | cons x xs ih =>
          cases hx : x.1 <;>
            simp [List.filter_cons, hx, Nat.succ_eq_add_one] <;> omega
      rw [hpart]
      unfold add_nuts_codes
      rw [List.length_map]
    · intro e he
      rcases List.mem_filter.mp he with ⟨hmem, hsome⟩
      rcases List.mem_map.mp hmem with ⟨r, _, hre⟩
      subst hre
      exact ⟨rfl, hsome⟩

/-- Witness for C2: `"Portugal"` resolves to `"PT"` through the table,
`"PT"` is returned unchanged, `"Atlantis"` resolves to `none`, and the
orchestrator keeps exactly the resolvable row while counting one failure. -/
theorem c2_region_code_resolution_witness :
    get_nuts_code pt_lookup "Portugal" = some "PT"
    ∧ get_nuts_code pt_lookup "PT" = some "PT"
    ∧ get_nuts_code pt_lookup "Atlantis" = none
    ∧ filter_nuts pt_lookup c2_rows = [(some "PT", "Portugal", 1)]
    ∧ nuts_codes_failed pt_lookup c2_rows = 1 := by
  have h := c2_region_code_resolution pt_lookup
  refine ⟨?_, ?_, ?_, ?_, ?_⟩
  · rw [h.2.1 "Portugal" (by decide)]
    decide
  · exact h.1 "PT" (by decide) (by decide)
  · exact h.2.2.1 "Atlantis" (by decide) (by decide)
  · decide
  · decide

/-- C6: under the `interpolate` strategy the normalizer's output for a
region depends only on that region's own rows (no missing value is ever
filled from another region's observations), and a region with values
5, missing, 15 over three consecutive years gets the middle value filled
with exactly 10. -/
theorem c6_interpolation_region_scoped :
    (∀ (df1 df2 : List NormRow) (g : String),
        df1.filter (fun r => r.geo == g) = df2.filter (fun r => r.geo == g) →
        (clean_and_normalize_interpolate df1).filter (fun r => r.geo == g)
          = (clean_and_normalize_interpolate df2).filter (fun r => r.geo == g))
    ∧ clean_and_normalize_interpolate c6_df_x
        = [⟨"X", 2000, some 5⟩, ⟨"X", 2001, some 10⟩, ⟨"X", 2002, some 15⟩] := by
  constructor
  · intro df1 df2 g heq
    rw [normalize_filter_geo df1 g, normalize_filter_geo df2 g, heq]
  · have h32 : normRowLt ⟨"X", 2002, some 15⟩ ⟨"X", 2001, none⟩ = false := by
      apply decide_eq_false
      rintro (h | ⟨-, h⟩)
      · exact lt_irrefl _ h
      · norm_num at h
    have h21 : normRowLt ⟨"X", 2001, none⟩ ⟨"X", 2000, some 5⟩ = false := by
      apply decide_eq_false
      rintro (h | ⟨-, h⟩)
      · exact lt_irrefl _ h
      · norm_num at h
    have hsort : stableSort normRowLt c6_df_x = c6_df_x := by
      simp [c6_df_x, stableSort, insSorted, h32, h21]
    have hinterp : interpolateList [some 5, none, some (15 : ℚ)]
        = [some 5, some 10, some 15] := by
      simp [interpolateList, List.enum, List.enumFrom]
      norm_num
    simp only [clean_and_normalize_interpolate, hsort]
    have hgeos : dedupOn (fun g => g) (c6_df_x.map (fun r => r.geo)) = ["X"] := by decide
    have hgrp : c6_df_x.filter (fun r => r.geo == "X") = c6_df_x := by decide
    rw [hgeos]
    simp only [List.flatMap_cons, List.flatMap_nil, hgrp, List.append_nil]
    have hmap : c6_df_x.map (fun r => r.value) = [some 5, none, some 15] := by decide
    rw [hmap, hinterp]
    decide

/-- Witness for C6: adding unrelated region-`Y` rows around region `X`'s
series does not change the normalized region-`X` rows. -/
theorem c6_interpolation_region_scoped_witness :
    (clean_and_normalize_interpolate c6_df_xy).filter (fun r => r.geo == "X")
      = (clean_and_normalize_interpolate c6_df_x).filter (fun r => r.geo == "X") :=
  c6_interpolation_region_scoped.1 c6_df_xy c6_df_x "X" (by decide)

theorem find?_pairwise_min {R : α → α → Prop} (p : α → Bool) :
    ∀ (s : List α) (kept : α), s.Pairwise R → s.find? p = some kept →
      ∀ x ∈ s, p x = true → kept = x ∨ R kept x := by
  intro s
  induction s with
  | nil => intro kept _ hfind; simp at hfind
  | cons y ys ih =>
    intro kept hp hfind x hx hpx
    rcases List.pairwise_cons.mp hp with ⟨hy, hys⟩
    cases hpy : p y
    · rw [List.find?_cons_of_neg _ (by simp [hpy])] at hfind
      rcases List.mem_cons.mp hx with hx | hx
      · subst hx
        rw [hpx] at hpy
        cases hpy
      · exact ih kept hys hfind x hx hpx
    · rw [List.find?_cons_of_pos _ hpy] at hfind
      injection hfind with h
      subst h
      rcases List.mem_cons.mp hx with hx | hx
      · exact Or.inl hx.symm
      · exact Or.inr (hy x hx)

theorem insSorted_perm (lt : α → α → Bool) (x : α) :
    ∀ (l : List α), (insSorted lt x l).Perm (x :: l) := by
  intro l
  induction l with
  | nil => exact List.Perm.refl _
  | cons y ys ih =>
    by_cases h : lt y x = true
    · simp only [insSorted, if_pos h]
      exact (ih.cons y).trans (List.Perm.swap x y ys)
    · simp only [insSorted, if_neg h]
      exact List.Perm.refl _

theorem stableSort_perm (lt : α → α → Bool) :
    ∀ (l : List α), (stableSort lt l).Perm l := by
  intro l
  induction l with
  | nil => exact List.Perm.refl _
  | cons x xs ih =>
    exact (insSorted_perm lt x (stableSort lt xs)).trans (ih.cons x)

theorem prio_lt_asymm (a b : BalCleanRow) (h : prio_lt a b = true) : prio_lt b a = false := by
  simp only [prio_lt, decide_eq_true_eq] at h
  simp [prio_lt, Nat.not_lt, Nat.le_of_lt h]

theorem prio_lt_negtrans (a b c : BalCleanRow)
    (h1 : prio_lt b a = false) (h2 : prio_lt c b = false) : prio_lt c a = false := by
  simp only [prio_lt, decide_eq_false_iff_not, Nat.not_lt] at h1 h2 ⊢
  exact le_trans h1 h2

theorem prio_sorted_stableSort (l : List BalCleanRow) :
    prio_sorted (stableSort prio_lt l) := by
  have h := pairwise_stableSort prio_lt prio_lt_asymm prio_lt_negtrans l
  refine h.imp ?_
  intro a b hab
  simp only [prio_lt, decide_eq_false_iff_not, Nat.not_lt] at hab
  exact hab

/-- Counterexample for C9: both rows of `c9_same_key_rows` carry the same
`(AL, 2014)` key, the same unit priority 1 and no `Terajoule` unit, so
`c9_swapped` — the two rows in reverse order — is sorted on `unit_priority`
and is an output `sort_values('unit_priority')` (default quicksort, order of
equal keys not guaranteed) is allowed to produce; `drop_duplicates(keep='first')`
on it keeps `c9_gwh_second`, not the first row in the original order,
refuting the claimed original-order tie-break as a guarantee of the code. -/
theorem c9_dedup_counterexample :
    c9_swapped.Perm c9_same_key_rows
    ∧ prio_sorted c9_swapped
    ∧ subStr "Terajoule" c9_gwh_first.unitName = false
    ∧ subStr "Terajoule" c9_gwh_second.unitName = false
    ∧ bal_key c9_gwh_first = bal_key c9_gwh_second
    ∧ c9_same_key_rows.find? (fun s => decide (bal_key s = bal_key c9_gwh_second))
        = some c9_gwh_first
    ∧ dedupOn bal_key c9_swapped = [c9_gwh_second]
    ∧ c9_gwh_second ≠ c9_gwh_first := by
  refine ⟨List.Perm.swap c9_gwh_first c9_gwh_second [], ?_, ?_, ?_, ?_, ?_, ?_, ?_⟩ <;>
    first
    | decide
    | (unfold prio_sorted; decide)

/-- C9 (amended): for every admissible result `s` of the unit-priority sort
(any permutation of the primary side that is non-decreasing in
`unit_priority`), the keep-first deduplication leaves at most one row per
`(geo, TIME_PERIOD)` key, every input key survives, and the kept row for a
key is one of that key's input rows, with a `Terajoule` unit whenever any
input row of that key has one; which same-key non-Terajoule row is kept is
unspecified.  `bal_dedup`, the executable model used in `merge_datasets`,
instantiates the sort with one admissible linearization. -/
theorem c9_dedup_amended (l s : List BalCleanRow)
    (hperm : s.Perm l) (hsorted : prio_sorted s) :
    (dedupOn bal_key s).Pairwise (fun a b => bal_key a ≠ bal_key b)
    ∧ (∀ r ∈ l, ∃ kept, kept ∈ dedupOn bal_key s ∧ kept ∈ l ∧ bal_key kept = bal_key r
        ∧ ((∃ x ∈ l, bal_key x = bal_key r ∧ subStr "Terajoule" x.unitName = true)
            → subStr "Terajoule" kept.unitName = true))
    ∧ bal_dedup l = dedupOn bal_key (stableSort prio_lt l)
    ∧ (stableSort prio_lt l).Perm l
    ∧ prio_sorted (stableSort prio_lt l) := by
  refine ⟨dedupOn_pairwise bal_key s, ?_, rfl, stableSort_perm prio_lt l,
    prio_sorted_stableSort l⟩
  intro r hr
  have hrs : r ∈ s := hperm.mem_iff.mpr hr
  rcases dedupOn_covers bal_key s r hrs with ⟨kept, hkmem, hkey⟩
  have hkeptl : kept ∈ l := hperm.mem_iff.mp (mem_dedupOn bal_key s kept hkmem)
  refine ⟨kept, hkmem, hkeptl, hkey, ?_⟩
  rintro ⟨x, hx, hxkey, hxTJ⟩
  have hxs : x ∈ s := hperm.mem_iff.mpr hx
  have hfind := dedupOn_find bal_key s kept hkmem
  have hpx : decide (bal_key x = bal_key kept) = true := by
    simp [hxkey, hkey]
  have hx0 : unit_priority x = 0 := (unit_priority_eq_zero x).mpr hxTJ
  have hmin := find?_pairwise_min (fun a => decide (bal_key a = bal_key kept)) s kept
    hsorted hfind x hxs hpx
  have hkept0 : unit_priority kept = 0 := by
    rcases hmin with h | h
    · rw [h, hx0]
    · rw [hx0] at h
      exact Nat.le_zero.mp h
  exact (unit_priority_eq_zero kept).mp hkept0

/-- Witness for C9 (amended): on `c9_rows` with the admissible sorted
permutation `c9_rows_sorted` (equal-priority rows deliberately out of their
original order), the row kept for the key `(AL, 2014)` has a Terajoule
unit. -/
theorem c9_dedup_amended_witness :
    ∃ kept, kept ∈ dedupOn bal_key c9_rows_sorted ∧ kept.geo = "AL"
      ∧ kept.timePeriod = 2014 ∧ subStr "Terajoule" kept.unitName = true := by
  obtain ⟨kept, hmem, _, hkey, hTJ⟩ :=
    (c9_dedup_amended c9_rows c9_rows_sorted (by decide)
        (by unfold prio_sorted; decide)).2.1
      (BalCleanRow.mk "A" "Primary production" "Total" "Gigawatt-hour" "AL" 2014 360 "u")
      (by decide)
  refine ⟨kept, hmem, congrArg Prod.fst hkey, congrArg Prod.snd hkey, ?_⟩
  exact hTJ ⟨BalCleanRow.mk "A" "Primary production" "Total" "Terajoule" "AL" 2014 100 "u",
    by decide, by decide, by decide⟩
